import Mathlib

/-!
# Scene State Engine — shallow embedding

A shallow embedding of the scene-v2 engine
(`services/scene_v2/engine.py` and `services/scene_v2/recipes.py`):
the mutable Python scene dictionary becomes an explicit `Scene` record that
every operation threads through, Python dictionaries become association
lists with Python update semantics (in-place value replacement for an
existing key, append for a new key), Python floats become exact rationals
(`ℚ`), and a raised `SceneApplyError` becomes an `Option String` / `Except
String` carrying the stable error `code` (the human message and the
`detail` payload are not inspected by any claim and are omitted).

Modelling notes, applying throughout:
* Python string operations (`strip`, `lower`, the slug regex, `<`) are
  reimplemented over `List Char` with the same ASCII semantics so that the
  kernel can evaluate them; Python `str.strip()` also removes `\x0b` and
  `\x0c`, which is mirrored.
* `float(x)` on a numeric *string* succeeds in Python; no claim exercises
  that coercion and `pyFloat` maps strings to `none` (non-numeric), as it
  does every other non-numeric value.
* `str(x)` for non-string scalars is mirrored for ints, bools and `None`;
  for floats, lists and dicts the engine only ever calls `str` on values
  it wrote itself as strings, so those cases use a placeholder rendering.
* `round` is Python bankers rounding (half to even), computed exactly on
  `ℚ` instead of on IEEE doubles; for every quantity the engine rounds
  (`1000/hz` for the registry rates and policy rates appearing in the
  claims) the two agree.
* `int(existing * 0.4)` truncates a nonnegative float; it is modelled as
  exact `existing * 2 / 5` in `Nat` (floor), which agrees with the float
  computation for every entity count below two million.
* Python would raise `TypeError`/`ZeroDivisionError` (not a
  `SceneApplyError`) on scenes holding values of shapes the engine never
  writes (for instance a non-dict `definition`) or on a policy rate of 0;
  the embedding is total, and theorems that depend on such positions add
  well-formedness hypotheses instead.
-/

/-- JSON-like values stored in scene records, mirroring what the Python
engine stores in its nested dictionaries. `rat` plays the role of a
Python float, `int` of a Python int. -/
inductive JVal where
  | null
  | bool (b : Bool)
  | int (n : Int)
  | rat (q : ℚ)
  | str (s : String)
  | list (xs : List JVal)
  | obj (fields : List (String × JVal))

/-- A Python dictionary with string keys, as an ordered association list. -/
abbrev Rec := List (String × JVal)

/-! ## Python dictionary primitives -/

/-- `d[k] = v`: replace the value in place if the key exists, else append. -/
def ainsert {β : Type} (l : List (String × β)) (k : String) (v : β) : List (String × β) :=
  if l.any (fun p => p.1 == k) then l.map (fun p => if p.1 == k then (k, v) else p)
  else l ++ [(k, v)]

/-- `d.pop(k, None)`: drop the binding for `k` if present. -/
def aerase {β : Type} (l : List (String × β)) (k : String) : List (String × β) :=
  l.filter (fun p => !(p.1 == k))

/-- `{**a, **b}`: right-biased dictionary merge with Python key ordering. -/
def dictUnion (a b : Rec) : Rec :=
  b.foldl (fun acc p => ainsert acc p.1 p.2) a

/-! ## Python string primitives -/

/-- The characters `str.strip()` removes. -/
def pyWs (c : Char) : Bool :=
  c == ' ' || c == '\t' || c == '\n' || c == '\x0d' || c == (Char.ofNat 11) || c == (Char.ofNat 12)

/-- `s.strip()`. -/
def pyStrip (s : String) : String :=
  String.mk (((s.data.dropWhile pyWs).reverse.dropWhile pyWs).reverse)

/-- ASCII lowercasing of one character, as Python `str.lower` does on the
ASCII range (the engine only lowercases ASCII tags). -/
def asciiLower (c : Char) : Char :=
  if 65 ≤ c.toNat ∧ c.toNat ≤ 90 then Char.ofNat (c.toNat + 32) else c

/-- `s.lower()`. -/
def pyLower (s : String) : String := String.mk (s.data.map asciiLower)

/-- `s.startswith(pre)`. -/
def pyStartsWith (s pre : String) : Bool := List.isPrefixOf pre.data s.data

/-- Python string `<` (lexicographic by code point). -/
def listLtB : List Char → List Char → Bool
  | [], [] => false
  | [], _ :: _ => true
  | _ :: _, [] => false
  | c :: cs, d :: ds => if c < d then true else if d < c then false else listLtB cs ds

/-- Python string `<` on `String`. -/
def strLtB (a b : String) : Bool := listLtB a.data b.data

/-- Python truthiness of a stored value. -/
def pyTruthy : JVal → Bool
  | .null => false
  | .bool b => b
  | .int n => n != 0
  | .rat q => !(q == 0)
  | .str s => s != ""
  | .list xs => !xs.isEmpty
  | .obj f => !f.isEmpty

/-- `a or b` on stored values. -/
def pyOr (a b : JVal) : JVal := if pyTruthy a then a else b

/-- `str(x)` for the scalar shapes the engine actually converts; floats,
lists and dicts never reach a `str()` call on engine-written scenes and
get a placeholder rendering. -/
def pyStr : JVal → String
  | .str s => s
  | .int n => toString n
  | .bool true => "True"
  | .bool false => "False"
  | .null => "None"
  | .rat q => toString q.num
  | .list _ => "<list>"
  | .obj _ => "<dict>"

/-- `float(x)`: numeric coercion; see the header note about numeric
strings. -/
def pyFloat : JVal → Option ℚ
  | .int n => some (mkRat n 1)
  | .rat q => some q
  | .bool b => some (if b then 1 else 0)
  | _ => none

/-- Bankers rounding of the exact rational `a / b` for `b > 0` (Python
`round` on the same value); total, with the (engine-unreachable) `b ≤ 0`
cases defined by symmetry and `0`. -/
def roundHalfEven (a b : Int) : Int :=
  if b = 0 then 0
  else
    let a' := if b < 0 then -a else a
    let b' := if b < 0 then -b else b
    let f := Int.fdiv a' b'
    let r := a' - b' * f
    if 2 * r < b' then f
    else if 2 * r > b' then f + 1
    else if f % 2 = 0 then f else f + 1

/-- `int(round(1000.0 / hz))`, computed exactly. -/
def roundDiv1000 (hz : ℚ) : Int := roundHalfEven (1000 * (hz.den : Int)) hz.num

/-- Zero-pad a digit string to width `w`. -/
def padZeros (w : Nat) (s : String) : String :=
  if s.length ≥ w then s else String.mk (List.replicate (w - s.length) '0') ++ s

/-- Python `f"{i:03d}"`. -/
def pad3 (i : Int) : String :=
  if i < 0 then "-" ++ padZeros 2 (toString (-i)) else padZeros 3 (toString i)

/-- Python `f"{n:05d}"` for the nonnegative synthetic op index. -/
def pad5 (n : Nat) : String := padZeros 5 (toString n)

/-! ## Engine constants and data -/

def ENTITY_NS : String := "entity"
def MATERIAL_NS : String := "material"
def BEHAVIOR_NS : String := "behavior"

def THREE_D_KINDS : List String := ["mesh", "camera", "light", "environment"]
def BUILTIN_MATERIAL_TYPES : List String := ["pbr", "unlit"]

/-- `SafetyPolicy` from the source; counts are ints, the uniform rate a
float (here `ℚ`). -/
structure SafetyPolicy where
  max_entities_2d : Int
  max_entities_3d : Int
  max_patch_ops_per_turn : Int
  max_materials : Int
  max_behaviors : Int
  max_texture_dimension : Int
  max_texture_memory_mb : Int
  max_uniform_update_hz : ℚ

/-- One scene document (`new_scene_state` lists exactly these keys);
`bindings` holds the single `entity_to_material` sub-map. -/
structure Scene where
  scene_id : String
  revision : Int
  entities : List (String × Rec)
  materials : List (String × Rec)
  behaviors : List (String × Rec)
  entity_to_material : List (String × String)
  applied_op_ids : List String
  id_aliases : List (String × String)
  counters : List (String × Int)
  uniform_update_at : List (String × Int)
  trigger_log : List Rec
  warnings : List String

def new_scene_state (scene_id : String) : Scene :=
  { scene_id := scene_id
    revision := 0
    entities := []
    materials := []
    behaviors := []
    entity_to_material := []
    applied_op_ids := []
    id_aliases := []
    counters := [(ENTITY_NS, 1), (MATERIAL_NS, 1), (BEHAVIOR_NS, 1)]
    uniform_update_at := []
    trigger_log := []
    warnings := [] }

/-- One patch op as the engine reads it: each field mirrors an
`op.get(...)` with its source default (`""` models both a missing key and
`None`, exactly as `str(op.get(...) or "")` collapses them). -/
structure Op where
  op : String := ""
  op_id : Option String := none
  at_ms : Int := 0
  entity_id : String := ""
  material_id : String := ""
  behavior_id : String := ""
  target_id : String := ""
  kind : String := ""
  uniform : String := ""
  action : String := ""
  value : JVal := JVal.null
  data : Rec := []
  changes : Rec := []

/-- `apply_ops` returns `{"applied_ops": ..., "warnings": ..., "degrade_notes": []}`. -/
structure ApplyResult where
  applied_ops : List Op
  warnings : List String
  degrade_notes : List String := []

/-! ## Shader recipe registry (`recipes.py`) -/

structure UniformRule where
  kind : String
  default : ℚ
  min_value : ℚ
  max_value : ℚ
  max_update_hz : ℚ

/-- `ShaderRecipe` (texture slots and backend targets are never read by
the apply path and are omitted). -/
structure ShaderRecipe where
  recipe_id : String
  version : String
  uniform_schema : List (String × UniformRule)

/-- The static `_RECIPES` catalog; decimal float literals are written as
exact fractions. -/
def RECIPES : List (String × ShaderRecipe) :=
  [ ("glass_refraction_like",
     { recipe_id := "glass_refraction_like"
       version := "1.0.0"
       uniform_schema :=
         [ ("ior", ⟨"number", mkRat 118 100, 1, mkRat 16 10, 30⟩)
         , ("distortion", ⟨"number", mkRat 12 100, 0, mkRat 35 100, 30⟩)
         , ("rim_strength", ⟨"number", mkRat 45 100, 0, 1, 30⟩) ] })
  , ("water_volume_tint",
     { recipe_id := "water_volume_tint"
       version := "1.0.0"
       uniform_schema :=
         [ ("density", ⟨"number", mkRat 36 100, 0, 1, 30⟩)
         , ("blue_shift", ⟨"number", mkRat 42 100, 0, 1, 30⟩) ] })
  , ("caustic_overlay_shader",
     { recipe_id := "caustic_overlay_shader"
       version := "1.0.0"
       uniform_schema :=
         [ ("intensity", ⟨"number", mkRat 5 10, 0, 1, 30⟩)
         , ("scale", ⟨"number", mkRat 16 10, mkRat 1 10, 4, 15⟩)
         , ("speed", ⟨"number", mkRat 8 10, mkRat 5 100, 3, 15⟩) ] }) ]

def get_recipe (recipe_id : String) : Option ShaderRecipe :=
  List.lookup recipe_id RECIPES

/-- `validate_uniform(recipe_id, uniform, value) -> (ok, reason, numeric)`. -/
def validate_uniform (recipe_id uniform : String) (value : JVal) :
    Bool × Option String × Option ℚ :=
  match get_recipe recipe_id with
  | none => (false, some "unknown_recipe_id", none)
  | some recipe =>
    match List.lookup uniform recipe.uniform_schema with
    | none => (false, some "unknown_uniform", none)
    | some rule =>
      match pyFloat value with
      | none => (false, some "uniform_not_numeric", none)
      | some numeric =>
        if numeric < rule.min_value ∨ numeric > rule.max_value then
          (false, some "uniform_out_of_range", none)
        else (true, none, some numeric)

/-! ## Canonical id allocator -/

/-- `_slug`: lowercase, collapse each run of characters outside
`[a-zA-Z0-9_-]` to a single dash, strip dashes, fall back to "item". -/
def slugOk (c : Char) : Bool :=
  (97 ≤ c.toNat ∧ c.toNat ≤ 122) || (48 ≤ c.toNat ∧ c.toNat ≤ 57) || c == '_' || c == '-'

/-- Collapse runs of invalid characters to one dash (`inRun` records
whether the previous character was part of an invalid run). -/
def collapseRuns : List Char → Bool → List Char
  | [], _ => []
  | c :: rest, inRun =>
    if slugOk c then c :: collapseRuns rest false
    else if inRun then collapseRuns rest true
    else '-' :: collapseRuns rest true

def slug (value : String) : String :=
  let lowered := (pyLower (pyStrip value)).data
  let collapsed := collapseRuns lowered false
  let stripped := ((collapsed.dropWhile (· == '-')).reverse.dropWhile (· == '-')).reverse
  if stripped.isEmpty then "item" else String.mk stripped

/-- `_prefix` from the source (the namespace tag mapped to an id prefix). -/
def nsPref (ns : String) : String :=
  if ns == ENTITY_NS then "entity"
  else if ns == MATERIAL_NS then "mat"
  else if ns == BEHAVIOR_NS then "beh"
  else ns

/-- `_mint`: read and bump the per-namespace counter, produce
`"<prefix>:<slug>#<idx:03d>"`. -/
def mint (scene : Scene) (ns seed : String) : String × Scene :=
  let idx := (List.lookup ns scene.counters).getD 1
  (nsPref ns ++ ":" ++ slug seed ++ "#" ++ pad3 idx,
   { scene with counters := ainsert scene.counters ns (idx + 1) })

/-- `canonical_id(scene, namespace, raw_id)`; the returned scene carries
the alias/counter mutations. -/
def canonical_id (scene : Scene) (ns raw_id : String) : String × Scene :=
  let token := pyStrip raw_id
  let pref := nsPref ns
  if pyStartsWith token (pref ++ ":") then (token, scene)
  else if token ≠ "" then
    let alias_key := ns ++ ":" ++ token
    let c0 := (List.lookup alias_key scene.id_aliases).getD ""
    if c0 ≠ "" then (c0, scene)
    else
      let m := mint scene ns token
      (m.1, { m.2 with id_aliases := ainsert m.2.id_aliases alias_key m.1 })
  else mint scene ns ns

/-! ## Op normalizer -/

/-- The per-op normalization (`at_ms` clamped to 0, a synthetic op id for
missing ones). -/
def normalizeOp (idx : Nat) (op : Op) : Op :=
  { op with at_ms := max 0 op.at_ms, op_id := some (op.op_id.getD ("op-" ++ pad5 idx)) }

/-- The `(at_ms, op_id, original index)` sort key order. -/
def keyLeB (a b : Int × String × Nat) : Bool :=
  if a.1 < b.1 then true
  else if b.1 < a.1 then false
  else if strLtB a.2.1 b.2.1 then true
  else if strLtB b.2.1 a.2.1 then false
  else a.2.2 ≤ b.2.2

/-- `normalize_ops`: stable total ordering by `(at_ms, op_id, idx)` (the
keys are distinct in their last component, so any sorted permutation is
the Python result). -/
def normalize_ops (ops : List Op) : List Op :=
  let rows := ops.enum.map (fun p =>
    let n := normalizeOp p.1 p.2
    ((n.at_ms, n.op_id.getD "", p.1), n))
  (List.insertionSort (fun a b => keyLeB a.1 b.1 = true) rows).map (fun r => r.2)

/-! ## Rebuild heuristic, caps -/

/-- `_looks_like_rebuild`; `int(existing * 0.4)` is exact `existing*2/5`. -/
def looks_like_rebuild (scene : Scene) (ops : List Op) : Bool :=
  let existing := scene.entities.length
  if existing = 0 then false
  else
    let creates := (ops.filter (fun o => o.op == "createEntity")).length
    let destroys := (ops.filter (fun o => o.op == "destroyEntity")).length
    let churn := creates + destroys
    decide (3 ≤ destroys ∧ 3 ≤ creates ∧ max 8 (existing * 2 / 5) < churn)

/-- `_entity_counts`: split by the fixed 3D kind set. -/
def entity_counts (scene : Scene) : Nat × Nat :=
  scene.entities.foldl
    (fun acc p =>
      let kind := pyLower (pyStrip (pyStr ((List.lookup "kind" p.2).getD (.str ""))))
      if THREE_D_KINDS.contains kind then (acc.1, acc.2 + 1) else (acc.1 + 1, acc.2))
    (0, 0)

/-- `_enforce_caps`, returning the error code it would raise. -/
def enforce_caps (scene : Scene) (policy : SafetyPolicy) : Option String :=
  let counts := entity_counts scene
  if (counts.1 : Int) > policy.max_entities_2d then some "patch_budget_exceeded"
  else if (counts.2 : Int) > policy.max_entities_3d then some "patch_budget_exceeded"
  else if (scene.materials.length : Int) > policy.max_materials then some "patch_budget_exceeded"
  else if (scene.behaviors.length : Int) > policy.max_behaviors then some "patch_budget_exceeded"
  else none

/-! ## Behavior transition resolution -/

/-- Interpret a stored value as a dictionary (`{}` where the engine would
only ever find a dict; see the header note on crafted non-dict values). -/
def asObj : JVal → Rec
  | .obj o => o
  | _ => []

/-- The body of the transition scan: first row whose stripped `event`
equals the action decides; an empty stripped `to` yields `None`. -/
def findTrans : List JVal → String → Option String
  | [], _ => none
  | row :: rest, action =>
    match row with
    | .obj r =>
      if pyStrip (pyStr ((List.lookup "event" r).getD (.str ""))) = action then
        let nxt := pyStrip (pyStr ((List.lookup "to" r).getD (.str "")))
        if nxt = "" then none else some nxt
      else findTrans rest action
    | _ => findTrans rest action

/-- `_resolve_transition`. -/
def resolve_transition (scene : Scene) (behavior_id action : String) : Option String :=
  let behavior := (List.lookup behavior_id scene.behaviors).getD []
  let defn := asObj ((List.lookup "definition" behavior).getD (.obj []))
  let statesVal := (List.lookup "states" defn).getD (.obj [])
  let current := pyStr (pyOr ((List.lookup "state" behavior).getD .null)
    (pyOr ((List.lookup "state" defn).getD .null) (.str "idle")))
  let transitions :=
    match statesVal with
    | .obj smap =>
      let stVal := (List.lookup current smap).getD .null
      let stObj := asObj (if pyTruthy stVal then stVal else .obj [])
      (List.lookup "transitions" stObj).getD .null
    | _ => .null
  let transitions := if pyTruthy transitions then transitions else .list []
  match transitions with
  | .list rows => findTrans rows action
  | _ => none

/-! ## Uniform updates -/

/-- `_apply_uniform_update`; returns the (possibly mutated) scene and the
raised error code, if any. -/
def apply_uniform_update (scene : Scene) (op : Op) (policy : SafetyPolicy) :
    Scene × Option String :=
  let r1 := canonical_id scene MATERIAL_NS op.material_id
  let material_id := r1.1
  let s1 := r1.2
  match List.lookup material_id s1.materials with
  | none => (s1, some "unknown_material_id")
  | some material =>
    let uniform_name := pyStrip op.uniform
    if uniform_name = "" then (s1, some "uniform_name_required")
    else
      let at_ms := op.at_ms
      let key := material_id ++ ":" ++ uniform_name
      let previous_ms := (List.lookup key s1.uniform_update_at).getD (-1)
      let recipe_id := pyStrip (pyStr ((List.lookup "recipe_id" material).getD (.str "")))
      let recipeOpt := if recipe_id ≠ "" then get_recipe recipe_id else none
      let max_hz0 := policy.max_uniform_update_hz
      let max_hz1 :=
        match recipeOpt with
        | some recipe =>
          match List.lookup uniform_name recipe.uniform_schema with
          | some rule => min max_hz0 rule.max_update_hz
          | none => max_hz0
        | none => max_hz0
      let max_hz := if max_hz1 ≤ 0 then policy.max_uniform_update_hz else max_hz1
      let min_delta_ms := roundDiv1000 max_hz
      if previous_ms ≥ 0 ∧ at_ms - previous_ms < min_delta_ms then
        (s1, some "uniform_rate_limited")
      else
        let validated : Except String ℚ :=
          if recipe_id ≠ "" then
            match validate_uniform recipe_id uniform_name op.value with
            | (true, _, numeric) => .ok (numeric.getD 0)
            | (false, reason, _) => .error (reason.getD "uniform_validation_failed")
          else
            match pyFloat op.value with
            | some q => .ok q
            | none => .error "uniform_not_numeric"
        match validated with
        | .error code => (s1, some code)
        | .ok value =>
          let uniforms := asObj ((List.lookup "uniforms" material).getD (.obj []))
          let material' :=
            ainsert (ainsert material "uniforms" (.obj (ainsert uniforms uniform_name (.rat value))))
              "updated_at_ms" (.int at_ms)
          ({ s1 with
              materials := ainsert s1.materials material_id material'
              uniform_update_at := ainsert s1.uniform_update_at key at_ms }, none)

/-! ## Single-op dispatch -/

/-- Append a trigger record and keep the last 200 (`del log[:-200]`). -/
def capLog (l : List Rec) : List Rec :=
  if l.length > 200 then l.drop (l.length - 200) else l

/-- Keep the last 200 warning strings. -/
def capWarnings (l : List String) : List String :=
  if l.length > 200 then l.drop (l.length - 200) else l

/-- The `createEntity` block of `_apply_single_op`. -/
def opCreateEntity (scene : Scene) (op : Op) : Scene × Option String :=
  let r1 := canonical_id scene ENTITY_NS op.entity_id
  let entity_id := r1.1
  let s1 := r1.2
  let kind := pyLower (pyStrip op.kind)
  if kind = "" then (s1, some "unknown_entity_kind")
  else
    let existing := (List.lookup entity_id s1.entities).getD []
    let record :=
      ainsert (ainsert (ainsert (dictUnion existing op.data) "id" (.str entity_id))
        "kind" (.str kind)) "updated_at_ms" (.int op.at_ms)
    ({ s1 with entities := ainsert s1.entities entity_id record }, none)

/-- The `updateEntity` block of `_apply_single_op`. -/
def opUpdateEntity (scene : Scene) (op : Op) : Scene × Option String :=
  let r1 := canonical_id scene ENTITY_NS op.entity_id
  let entity_id := r1.1
  let s1 := r1.2
  match List.lookup entity_id s1.entities with
  | none => (s1, some "unknown_entity_id")
  | some existing =>
    let record := ainsert (dictUnion existing op.changes) "updated_at_ms" (.int op.at_ms)
    ({ s1 with entities := ainsert s1.entities entity_id record }, none)

/-- The `destroyEntity` block of `_apply_single_op`. -/
def opDestroyEntity (scene : Scene) (op : Op) : Scene × Option String :=
  let r1 := canonical_id scene ENTITY_NS op.entity_id
  let entity_id := r1.1
  let s1 := r1.2
  ({ s1 with
      entities := aerase s1.entities entity_id
      entity_to_material := aerase s1.entity_to_material entity_id }, none)

/-- The `createMaterial` block of `_apply_single_op`. -/
def opCreateMaterial (scene : Scene) (op : Op) : Scene × Option String :=
  let r1 := canonical_id scene MATERIAL_NS op.material_id
  let material_id := r1.1
  let s1 := r1.2
  let data := op.data
  let ty0 := pyLower (pyStrip (pyStr ((List.lookup "type" data).getD (.str "unlit"))))
  let material_type := if ty0 = "" then "unlit" else ty0
  let recipe_id := pyStrip (pyStr (pyOr ((List.lookup "recipe_id" data).getD .null)
    (pyOr ((List.lookup "shader_id" data).getD .null) (.str ""))))
  if ¬ BUILTIN_MATERIAL_TYPES.contains material_type ∧ recipe_id = "" then
    (s1, some "unknown_recipe_id")
  else if recipe_id ≠ "" ∧ (get_recipe recipe_id).isNone then
    (s1, some "unknown_recipe_id")
  else
    let uniformsVal := pyOr ((List.lookup "uniforms" data).getD .null) (.obj [])
    let record :=
      ainsert (ainsert (ainsert (ainsert (ainsert (dictUnion
        ((List.lookup material_id s1.materials).getD []) data)
        "id" (.str material_id)) "type" (.str material_type))
        "recipe_id" (.str recipe_id)) "uniforms" uniformsVal)
        "updated_at_ms" (.int op.at_ms)
    ({ s1 with materials := ainsert s1.materials material_id record }, none)

/-- The `updateMaterial` block of `_apply_single_op`. -/
def opUpdateMaterial (scene : Scene) (op : Op) : Scene × Option String :=
  let r1 := canonical_id scene MATERIAL_NS op.material_id
  let material_id := r1.1
  let s1 := r1.2
  match List.lookup material_id s1.materials with
  | none => (s1, some "unknown_material_id")
  | some existing =>
    let changes := op.changes
    let ridCheck : Option String :=
      if (List.lookup "recipe_id" changes).isSome then
        let rid := pyStrip (pyStr (pyOr ((List.lookup "recipe_id" changes).getD .null) (.str "")))
        if rid ≠ "" ∧ (get_recipe rid).isNone then some "unknown_recipe_id" else none
      else none
    match ridCheck with
    | some e => (s1, some e)
    | none =>
      let record := ainsert (dictUnion existing changes) "updated_at_ms" (.int op.at_ms)
      ({ s1 with materials := ainsert s1.materials material_id record }, none)

/-- The `destroyMaterial` block of `_apply_single_op`. -/
def opDestroyMaterial (scene : Scene) (op : Op) : Scene × Option String :=
  let r1 := canonical_id scene MATERIAL_NS op.material_id
  let material_id := r1.1
  let s1 := r1.2
  ({ s1 with
      materials := aerase s1.materials material_id
      entity_to_material := s1.entity_to_material.filter (fun p => !(p.2 == material_id)) },
   none)

/-- The `applyMaterial` block of `_apply_single_op`. -/
def opApplyMaterial (scene : Scene) (op : Op) : Scene × Option String :=
  let r1 := canonical_id scene ENTITY_NS op.entity_id
  let entity_id := r1.1
  let r2 := canonical_id r1.2 MATERIAL_NS op.material_id
  let material_id := r2.1
  let s2 := r2.2
  if (List.lookup entity_id s2.entities).isNone then (s2, some "unknown_entity_id")
  else if (List.lookup material_id s2.materials).isNone then (s2, some "unknown_material_id")
  else ({ s2 with entity_to_material := ainsert s2.entity_to_material entity_id material_id },
        none)

/-- The `createBehavior` block of `_apply_single_op`. -/
def opCreateBehavior (scene : Scene) (op : Op) : Scene × Option String :=
  let r1 := canonical_id scene BEHAVIOR_NS op.behavior_id
  let behavior_id := r1.1
  let r2 := canonical_id r1.2 ENTITY_NS op.target_id
  let target_id := r2.1
  let s2 := r2.2
  if (List.lookup target_id s2.entities).isNone then (s2, some "unknown_entity_id")
  else
    let data := op.data
    let record :=
      ainsert (ainsert (ainsert (ainsert (ainsert
        ((List.lookup behavior_id s2.behaviors).getD [])
        "id" (.str behavior_id)) "target_id" (.str target_id))
        "definition" (.obj data))
        "state" (.str (pyStr ((List.lookup "state" data).getD (.str "idle")))))
        "updated_at_ms" (.int op.at_ms)
    ({ s2 with behaviors := ainsert s2.behaviors behavior_id record }, none)

/-- The `updateBehavior` block of `_apply_single_op`. -/
def opUpdateBehavior (scene : Scene) (op : Op) : Scene × Option String :=
  let r1 := canonical_id scene BEHAVIOR_NS op.behavior_id
  let behavior_id := r1.1
  let s1 := r1.2
  match List.lookup behavior_id s1.behaviors with
  | none => (s1, some "unknown_behavior_id")
  | some existing =>
    let changes := op.changes
    let b0 := ainsert (dictUnion existing changes) "updated_at_ms" (.int op.at_ms)
    let record :=
      match List.lookup "definition" changes with
      | some (.obj d) =>
        ainsert b0 "definition"
          (.obj (dictUnion (asObj ((List.lookup "definition" existing).getD (.obj []))) d))
      | _ => b0
    ({ s1 with behaviors := ainsert s1.behaviors behavior_id record }, none)

/-- The `destroyBehavior` block of `_apply_single_op`. -/
def opDestroyBehavior (scene : Scene) (op : Op) : Scene × Option String :=
  let r1 := canonical_id scene BEHAVIOR_NS op.behavior_id
  let behavior_id := r1.1
  let s1 := r1.2
  ({ s1 with behaviors := aerase s1.behaviors behavior_id }, none)

/-- The trigger-log entry appended by a `trigger` op. -/
def triggerEntry (target_id action : String) (at_ms : Int) : Rec :=
  [("target_id", .str target_id), ("action", .str action), ("at_ms", .int at_ms)]

/-- The `trigger` block of `_apply_single_op`. -/
def opTrigger (scene : Scene) (op : Op) : Scene × Option String :=
  let target_id := pyStrip op.target_id
  let action := pyStrip op.action
  if target_id = "" ∨ action = "" then (scene, some "invalid_trigger")
  else
    let r1 := canonical_id scene BEHAVIOR_NS target_id
    let behavior_id := r1.1
    let s1 := r1.2
    match List.lookup behavior_id s1.behaviors with
    | some behavior =>
      let s2 := { s1 with
        behaviors := ainsert s1.behaviors behavior_id
          (ainsert behavior "last_trigger" (.str action)) }
      let s3 :=
        match resolve_transition s2 behavior_id action with
        | some nxt =>
          { s2 with
            behaviors := ainsert s2.behaviors behavior_id
              (ainsert ((List.lookup behavior_id s2.behaviors).getD [])
                "state" (.str nxt)) }
        | none => s2
      ({ s3 with trigger_log := capLog (s3.trigger_log ++ [triggerEntry target_id action op.at_ms]) },
       none)
    | none =>
      let r2 := canonical_id s1 ENTITY_NS target_id
      let entity_id := r2.1
      let s2 := r2.2
      match List.lookup entity_id s2.entities with
      | some entity =>
        let s3 := { s2 with
          entities := ainsert s2.entities entity_id
            (ainsert entity "last_trigger" (.str action)) }
        ({ s3 with trigger_log := capLog (s3.trigger_log ++ [triggerEntry target_id action op.at_ms]) },
         none)
      | none => (s2, some "unknown_trigger_target")

/-- `_apply_single_op`: the source if/elif dispatch over the 13 op names,
with each block split into its own definition above; returns the
(possibly partially mutated) scene and the raised error code, if any. -/
def apply_single_op (scene : Scene) (op : Op) (policy : SafetyPolicy) :
    Scene × Option String :=
  if op.op = "createEntity" then opCreateEntity scene op
  else if op.op = "updateEntity" then opUpdateEntity scene op
  else if op.op = "destroyEntity" then opDestroyEntity scene op
  else if op.op = "createMaterial" then opCreateMaterial scene op
  else if op.op = "updateMaterial" then opUpdateMaterial scene op
  else if op.op = "destroyMaterial" then opDestroyMaterial scene op
  else if op.op = "applyMaterial" then opApplyMaterial scene op
  else if op.op = "setUniform" then apply_uniform_update scene op policy
  else if op.op = "createBehavior" then opCreateBehavior scene op
  else if op.op = "updateBehavior" then opUpdateBehavior scene op
  else if op.op = "destroyBehavior" then opDestroyBehavior scene op
  else if op.op = "trigger" then opTrigger scene op
  else (scene, some "unsupported_op")

/-! ## The apply loop -/

/-- The mutable loop state of `apply_ops`. -/
structure LoopState where
  scene : Scene
  seen : List String
  warns : List String
  applied : List Op
  err : Option String

/-- The op loop of `apply_ops`: skip blank ids, warn on duplicates, stop
at the first raised error. -/
def applyLoop (policy : SafetyPolicy) : List Op → LoopState → LoopState
  | [], st => st
  | op :: rest, st =>
    let opid := pyStrip (op.op_id.getD "")
    if opid = "" then applyLoop policy rest st
    else if opid ∈ st.seen then
      applyLoop policy rest
        { st with warns := st.warns ++ ["op_duplicate_ignored:" ++ opid] }
    else
      let r := apply_single_op st.scene op policy
      match r.2 with
      | some e => { st with scene := r.1, err := some e }
      | none =>
        applyLoop policy rest
          { st with scene := r.1, seen := st.seen ++ [opid], applied := st.applied ++ [op] }

/-- `set(...)` over the stored op-id list: one representative per member
(a Python set is unordered; only membership and the sorted rendering are
observable, so any duplicate-free representation is faithful). -/
def pySet : List String → List String
  | [] => []
  | x :: rest =>
    let r := pySet rest
    if x ∈ r then r else x :: r

/-- `sorted(seen)`: the dedup set sorted by Python string order. -/
def sortStrings (l : List String) : List String :=
  List.insertionSort (fun a b => strLtB b a = false) l

/-- `apply_ops`: precheck, normalize, rebuild heuristic, op loop, cap
enforcement, then commit bookkeeping. The returned scene is the live
(possibly partially mutated) document even on error, mirroring Python
mutation by reference. -/
def apply_ops (scene : Scene) (ops : List Op) (policy : SafetyPolicy)
    (explicit_rebuild : Bool) : Scene × Except String ApplyResult :=
  if (ops.length : Int) > policy.max_patch_ops_per_turn then
    (scene, .error "patch_budget_exceeded")
  else
    let normalized := normalize_ops ops
    if looks_like_rebuild scene normalized && !explicit_rebuild then
      (scene, .error "suspicious_rebuild")
    else
      let st := applyLoop policy normalized
        ⟨scene, pySet scene.applied_op_ids, [], [], none⟩
      match st.err with
      | some e => (st.scene, .error e)
      | none =>
        match enforce_caps st.scene policy with
        | some e => (st.scene, .error e)
        | none =>
          let hist := if st.warns.isEmpty then st.scene.warnings
            else capWarnings (st.scene.warnings ++ st.warns)
          ({ st.scene with
              applied_op_ids := sortStrings st.seen
              revision := st.scene.revision + 1
              warnings := hist },
           .ok { applied_ops := st.applied, warnings := st.warns })

/-! ## Shared facts about the engine -/

/-- `canonical_id` only ever touches the alias table and the counters. -/
theorem cid_revision (s : Scene) (ns r : String) :
    ((canonical_id s ns r).2).revision = s.revision := by
  simp only [canonical_id, mint]; split_ifs <;> rfl

theorem cid_applied (s : Scene) (ns r : String) :
    ((canonical_id s ns r).2).applied_op_ids = s.applied_op_ids := by
  simp only [canonical_id, mint]; split_ifs <;> rfl

theorem cid_entities (s : Scene) (ns r : String) :
    ((canonical_id s ns r).2).entities = s.entities := by
  simp only [canonical_id, mint]; split_ifs <;> rfl

theorem cid_materials (s : Scene) (ns r : String) :
    ((canonical_id s ns r).2).materials = s.materials := by
  simp only [canonical_id, mint]; split_ifs <;> rfl

theorem cid_behaviors (s : Scene) (ns r : String) :
    ((canonical_id s ns r).2).behaviors = s.behaviors := by
  simp only [canonical_id, mint]; split_ifs <;> rfl

theorem cid_bindings (s : Scene) (ns r : String) :
    ((canonical_id s ns r).2).entity_to_material = s.entity_to_material := by
  simp only [canonical_id, mint]; split_ifs <;> rfl

theorem cid_uniform_at (s : Scene) (ns r : String) :
    ((canonical_id s ns r).2).uniform_update_at = s.uniform_update_at := by
  simp only [canonical_id, mint]; split_ifs <;> rfl

theorem cid_trigger_log (s : Scene) (ns r : String) :
    ((canonical_id s ns r).2).trigger_log = s.trigger_log := by
  simp only [canonical_id, mint]; split_ifs <;> rfl

/-- Bookkeeping fields (`revision`, `applied_op_ids`) are untouched by a
single op. -/
def BookKept (s t : Scene) : Prop :=
  t.revision = s.revision ∧ t.applied_op_ids = s.applied_op_ids

theorem cid_book (s : Scene) (ns r : String) : BookKept s ((canonical_id s ns r).2) :=
  ⟨cid_revision s ns r, cid_applied s ns r⟩

theorem opCreateEntity_book (s : Scene) (op : Op) : BookKept s ((opCreateEntity s op).1) := by
  unfold opCreateEntity
  dsimp only
  split_ifs <;> exact ⟨cid_revision .., cid_applied ..⟩

theorem opUpdateEntity_book (s : Scene) (op : Op) : BookKept s ((opUpdateEntity s op).1) := by
  unfold opUpdateEntity
  dsimp only
  split <;> exact ⟨cid_revision .., cid_applied ..⟩

theorem opDestroyEntity_book (s : Scene) (op : Op) : BookKept s ((opDestroyEntity s op).1) :=
  ⟨cid_revision .., cid_applied ..⟩

theorem opCreateMaterial_book (s : Scene) (op : Op) : BookKept s ((opCreateMaterial s op).1) := by
  unfold opCreateMaterial
  dsimp only
  split_ifs <;> exact ⟨cid_revision .., cid_applied ..⟩

theorem opUpdateMaterial_book (s : Scene) (op : Op) : BookKept s ((opUpdateMaterial s op).1) := by
  unfold opUpdateMaterial
  dsimp only
  split
  · exact ⟨cid_revision .., cid_applied ..⟩
  · split <;> exact ⟨cid_revision .., cid_applied ..⟩

theorem opDestroyMaterial_book (s : Scene) (op : Op) : BookKept s ((opDestroyMaterial s op).1) :=
  ⟨cid_revision .., cid_applied ..⟩

theorem cid2_book (s : Scene) (n1 r1 n2 r2 : String) :
    BookKept s ((canonical_id ((canonical_id s n1 r1).2) n2 r2).2) := by
  refine ⟨?_, ?_⟩
  · rw [cid_revision, cid_revision]
  · rw [cid_applied, cid_applied]

theorem opApplyMaterial_book (s : Scene) (op : Op) : BookKept s ((opApplyMaterial s op).1) := by
  unfold opApplyMaterial
  dsimp only
  split_ifs <;> exact cid2_book ..

theorem opCreateBehavior_book (s : Scene) (op : Op) : BookKept s ((opCreateBehavior s op).1) := by
  unfold opCreateBehavior
  dsimp only
  split_ifs <;> exact cid2_book ..

theorem opUpdateBehavior_book (s : Scene) (op : Op) : BookKept s ((opUpdateBehavior s op).1) := by
  unfold opUpdateBehavior
  dsimp only
  split <;> exact ⟨cid_revision .., cid_applied ..⟩

theorem opDestroyBehavior_book (s : Scene) (op : Op) : BookKept s ((opDestroyBehavior s op).1) :=
  ⟨cid_revision .., cid_applied ..⟩

theorem opTrigger_book (s : Scene) (op : Op) : BookKept s ((opTrigger s op).1) := by
  unfold opTrigger
  dsimp only
  split_ifs
  · exact ⟨rfl, rfl⟩
  · split
    · split <;> exact ⟨cid_revision .., cid_applied ..⟩
    · split <;> exact cid2_book ..

theorem apply_uniform_update_book (s : Scene) (op : Op) (p : SafetyPolicy) :
    BookKept s ((apply_uniform_update s op p).1) := by
  unfold apply_uniform_update
  dsimp only
  split
  · exact ⟨cid_revision .., cid_applied ..⟩
  · split_ifs <;> (repeat' split) <;> exact ⟨cid_revision .., cid_applied ..⟩

/-- Dispatch rewrites for `_apply_single_op`, one per op name. -/
theorem dispatchCreateEntity (scene : Scene) (op : Op) (p : SafetyPolicy)
    (h : op.op = "createEntity") : apply_single_op scene op p = opCreateEntity scene op := by
  simp only [apply_single_op, if_pos h]

theorem dispatchUpdateEntity (scene : Scene) (op : Op) (p : SafetyPolicy)
    (h : op.op = "updateEntity") : apply_single_op scene op p = opUpdateEntity scene op := by
  have n1 : op.op ≠ "createEntity" := by rw [h]; decide
  simp only [apply_single_op, if_neg n1, if_pos h]

theorem dispatchDestroyEntity (scene : Scene) (op : Op) (p : SafetyPolicy)
    (h : op.op = "destroyEntity") : apply_single_op scene op p = opDestroyEntity scene op := by
  have n1 : op.op ≠ "createEntity" := by rw [h]; decide
  have n2 : op.op ≠ "updateEntity" := by rw [h]; decide
  simp only [apply_single_op, if_neg n1, if_neg n2, if_pos h]

theorem dispatchCreateMaterial (scene : Scene) (op : Op) (p : SafetyPolicy)
    (h : op.op = "createMaterial") : apply_single_op scene op p = opCreateMaterial scene op := by
  have n1 : op.op ≠ "createEntity" := by rw [h]; decide
  have n2 : op.op ≠ "updateEntity" := by rw [h]; decide
  have n3 : op.op ≠ "destroyEntity" := by rw [h]; decide
  simp only [apply_single_op, if_neg n1, if_neg n2, if_neg n3, if_pos h]

theorem dispatchUpdateMaterial (scene : Scene) (op : Op) (p : SafetyPolicy)
    (h : op.op = "updateMaterial") : apply_single_op scene op p = opUpdateMaterial scene op := by
  have n1 : op.op ≠ "createEntity" := by rw [h]; decide
  have n2 : op.op ≠ "updateEntity" := by rw [h]; decide
  have n3 : op.op ≠ "destroyEntity" := by rw [h]; decide
  have n4 : op.op ≠ "createMaterial" := by rw [h]; decide
  simp only [apply_single_op, if_neg n1, if_neg n2, if_neg n3, if_neg n4, if_pos h]

theorem dispatchDestroyMaterial (scene : Scene) (op : Op) (p : SafetyPolicy)
    (h : op.op = "destroyMaterial") : apply_single_op scene op p = opDestroyMaterial scene op := by
  have n1 : op.op ≠ "createEntity" := by rw [h]; decide
  have n2 : op.op ≠ "updateEntity" := by rw [h]; decide
  have n3 : op.op ≠ "destroyEntity" := by rw [h]; decide
  have n4 : op.op ≠ "createMaterial" := by rw [h]; decide
  have n5 : op.op ≠ "updateMaterial" := by rw [h]; decide
  simp only [apply_single_op, if_neg n1, if_neg n2, if_neg n3, if_neg n4, if_neg n5, if_pos h]

theorem dispatchApplyMaterial (scene : Scene) (op : Op) (p : SafetyPolicy)
    (h : op.op = "applyMaterial") : apply_single_op scene op p = opApplyMaterial scene op := by
  have n1 : op.op ≠ "createEntity" := by rw [h]; decide
  have n2 : op.op ≠ "updateEntity" := by rw [h]; decide
  have n3 : op.op ≠ "destroyEntity" := by rw [h]; decide
  have n4 : op.op ≠ "createMaterial" := by rw [h]; decide
  have n5 : op.op ≠ "updateMaterial" := by rw [h]; decide
  have n6 : op.op ≠ "destroyMaterial" := by rw [h]; decide
  simp only [apply_single_op, if_neg n1, if_neg n2, if_neg n3, if_neg n4, if_neg n5, if_neg n6, if_pos h]

theorem dispatchSetUniform (scene : Scene) (op : Op) (p : SafetyPolicy)
    (h : op.op = "setUniform") : apply_single_op scene op p = apply_uniform_update scene op p := by
  have n1 : op.op ≠ "createEntity" := by rw [h]; decide
  have n2 : op.op ≠ "updateEntity" := by rw [h]; decide
  have n3 : op.op ≠ "destroyEntity" := by rw [h]; decide
  have n4 : op.op ≠ "createMaterial" := by rw [h]; decide
  have n5 : op.op ≠ "updateMaterial" := by rw [h]; decide
  have n6 : op.op ≠ "destroyMaterial" := by rw [h]; decide
  have n7 : op.op ≠ "applyMaterial" := by rw [h]; decide
  simp only [apply_single_op, if_neg n1, if_neg n2, if_neg n3, if_neg n4, if_neg n5, if_neg n6, if_neg n7, if_pos h]

theorem dispatchCreateBehavior (scene : Scene) (op : Op) (p : SafetyPolicy)
    (h : op.op = "createBehavior") : apply_single_op scene op p = opCreateBehavior scene op := by
  have n1 : op.op ≠ "createEntity" := by rw [h]; decide
  have n2 : op.op ≠ "updateEntity" := by rw [h]; decide
  have n3 : op.op ≠ "destroyEntity" := by rw [h]; decide
  have n4 : op.op ≠ "createMaterial" := by rw [h]; decide
  have n5 : op.op ≠ "updateMaterial" := by rw [h]; decide
  have n6 : op.op ≠ "destroyMaterial" := by rw [h]; decide
  have n7 : op.op ≠ "applyMaterial" := by rw [h]; decide
  have n8 : op.op ≠ "setUniform" := by rw [h]; decide
  simp only [apply_single_op, if_neg n1, if_neg n2, if_neg n3, if_neg n4, if_neg n5, if_neg n6, if_neg n7, if_neg n8, if_pos h]

theorem dispatchUpdateBehavior (scene : Scene) (op : Op) (p : SafetyPolicy)
    (h : op.op = "updateBehavior") : apply_single_op scene op p = opUpdateBehavior scene op := by
  have n1 : op.op ≠ "createEntity" := by rw [h]; decide
  have n2 : op.op ≠ "updateEntity" := by rw [h]; decide
  have n3 : op.op ≠ "destroyEntity" := by rw [h]; decide
  have n4 : op.op ≠ "createMaterial" := by rw [h]; decide
  have n5 : op.op ≠ "updateMaterial" := by rw [h]; decide
  have n6 : op.op ≠ "destroyMaterial" := by rw [h]; decide
  have n7 : op.op ≠ "applyMaterial" := by rw [h]; decide
  have n8 : op.op ≠ "setUniform" := by rw [h]; decide
  have n9 : op.op ≠ "createBehavior" := by rw [h]; decide
  simp only [apply_single_op, if_neg n1, if_neg n2, if_neg n3, if_neg n4, if_neg n5, if_neg n6, if_neg n7, if_neg n8, if_neg n9, if_pos h]

theorem dispatchDestroyBehavior (scene : Scene) (op : Op) (p : SafetyPolicy)
    (h : op.op = "destroyBehavior") : apply_single_op scene op p = opDestroyBehavior scene op := by
  have n1 : op.op ≠ "createEntity" := by rw [h]; decide
  have n2 : op.op ≠ "updateEntity" := by rw [h]; decide
  have n3 : op.op ≠ "destroyEntity" := by rw [h]; decide
  have n4 : op.op ≠ "createMaterial" := by rw [h]; decide
  have n5 : op.op ≠ "updateMaterial" := by rw [h]; decide
  have n6 : op.op ≠ "destroyMaterial" := by rw [h]; decide
  have n7 : op.op ≠ "applyMaterial" := by rw [h]; decide
  have n8 : op.op ≠ "setUniform" := by rw [h]; decide
  have n9 : op.op ≠ "createBehavior" := by rw [h]; decide
  have n10 : op.op ≠ "updateBehavior" := by rw [h]; decide
  simp only [apply_single_op, if_neg n1, if_neg n2, if_neg n3, if_neg n4, if_neg n5, if_neg n6, if_neg n7, if_neg n8, if_neg n9, if_neg n10, if_pos h]

theorem dispatchTrigger (scene : Scene) (op : Op) (p : SafetyPolicy)
    (h : op.op = "trigger") : apply_single_op scene op p = opTrigger scene op := by
  have n1 : op.op ≠ "createEntity" := by rw [h]; decide
  have n2 : op.op ≠ "updateEntity" := by rw [h]; decide
  have n3 : op.op ≠ "destroyEntity" := by rw [h]; decide
  have n4 : op.op ≠ "createMaterial" := by rw [h]; decide
  have n5 : op.op ≠ "updateMaterial" := by rw [h]; decide
  have n6 : op.op ≠ "destroyMaterial" := by rw [h]; decide
  have n7 : op.op ≠ "applyMaterial" := by rw [h]; decide
  have n8 : op.op ≠ "setUniform" := by rw [h]; decide
  have n9 : op.op ≠ "createBehavior" := by rw [h]; decide
  have n10 : op.op ≠ "updateBehavior" := by rw [h]; decide
  have n11 : op.op ≠ "destroyBehavior" := by rw [h]; decide
  simp only [apply_single_op, if_neg n1, if_neg n2, if_neg n3, if_neg n4, if_neg n5, if_neg n6, if_neg n7, if_neg n8, if_neg n9, if_neg n10, if_neg n11, if_pos h]
theorem dispatchUnsupported (scene : Scene) (op : Op) (p : SafetyPolicy)
    (h : op.op ∉ ["createEntity", "updateEntity", "destroyEntity", "createMaterial",
      "updateMaterial", "destroyMaterial", "applyMaterial", "setUniform",
      "createBehavior", "updateBehavior", "destroyBehavior", "trigger"]) :
    apply_single_op scene op p = (scene, some "unsupported_op") := by
  simp only [List.mem_cons, List.not_mem_nil, or_false, not_or] at h
  obtain ⟨n1, n2, n3, n4, n5, n6, n7, n8, n9, n10, n11, n12⟩ := h
  simp only [apply_single_op, if_neg n1, if_neg n2, if_neg n3, if_neg n4, if_neg n5,
    if_neg n6, if_neg n7, if_neg n8, if_neg n9, if_neg n10, if_neg n11, if_neg n12]

/-- `_apply_single_op` never touches the revision counter or the
committed op-id set. -/
theorem single_op_book (s : Scene) (op : Op) (p : SafetyPolicy) :
    BookKept s ((apply_single_op s op p).1) := by
  unfold apply_single_op
  by_cases h1 : op.op = "createEntity"
  · simp only [if_pos h1]
    exact opCreateEntity_book ..
  by_cases h2 : op.op = "updateEntity"
  · simp only [if_neg h1, if_pos h2]
    exact opUpdateEntity_book ..
  by_cases h3 : op.op = "destroyEntity"
  · simp only [if_neg h1, if_neg h2, if_pos h3]
    exact opDestroyEntity_book ..
  by_cases h4 : op.op = "createMaterial"
  · simp only [if_neg h1, if_neg h2, if_neg h3, if_pos h4]
    exact opCreateMaterial_book ..
  by_cases h5 : op.op = "updateMaterial"
  · simp only [if_neg h1, if_neg h2, if_neg h3, if_neg h4, if_pos h5]
    exact opUpdateMaterial_book ..
  by_cases h6 : op.op = "destroyMaterial"
  · simp only [if_neg h1, if_neg h2, if_neg h3, if_neg h4, if_neg h5, if_pos h6]
    exact opDestroyMaterial_book ..
  by_cases h7 : op.op = "applyMaterial"
  · simp only [if_neg h1, if_neg h2, if_neg h3, if_neg h4, if_neg h5, if_neg h6, if_pos h7]
    exact opApplyMaterial_book ..
  by_cases h8 : op.op = "setUniform"
  · simp only [if_neg h1, if_neg h2, if_neg h3, if_neg h4, if_neg h5, if_neg h6, if_neg h7, if_pos h8]
    exact apply_uniform_update_book ..
  by_cases h9 : op.op = "createBehavior"
  · simp only [if_neg h1, if_neg h2, if_neg h3, if_neg h4, if_neg h5, if_neg h6, if_neg h7, if_neg h8, if_pos h9]
    exact opCreateBehavior_book ..
  by_cases h10 : op.op = "updateBehavior"
  · simp only [if_neg h1, if_neg h2, if_neg h3, if_neg h4, if_neg h5, if_neg h6, if_neg h7, if_neg h8, if_neg h9, if_pos h10]
    exact opUpdateBehavior_book ..
  by_cases h11 : op.op = "destroyBehavior"
  · simp only [if_neg h1, if_neg h2, if_neg h3, if_neg h4, if_neg h5, if_neg h6, if_neg h7, if_neg h8, if_neg h9, if_neg h10, if_pos h11]
    exact opDestroyBehavior_book ..
  by_cases h12 : op.op = "trigger"
  · simp only [if_neg h1, if_neg h2, if_neg h3, if_neg h4, if_neg h5, if_neg h6, if_neg h7, if_neg h8, if_neg h9, if_neg h10, if_neg h11, if_pos h12]
    exact opTrigger_book ..
  simp only [if_neg h1, if_neg h2, if_neg h3, if_neg h4, if_neg h5, if_neg h6, if_neg h7, if_neg h8, if_neg h9, if_neg h10, if_neg h11, if_neg h12]
  exact ⟨rfl, rfl⟩

theorem bookKept_refl (s : Scene) : BookKept s s := ⟨rfl, rfl⟩

theorem bookKept_trans {a b c : Scene} (h1 : BookKept a b) (h2 : BookKept b c) :
    BookKept a c := ⟨h2.1.trans h1.1, h2.2.trans h1.2⟩

/-- The op loop of `apply_ops` never touches revision or the committed
op-id list on the scene. -/
theorem applyLoop_book (p : SafetyPolicy) (ops : List Op) (st : LoopState) :
    BookKept st.scene ((applyLoop p ops st).scene) := by
  induction ops generalizing st with
  | nil => exact bookKept_refl _
  | cons op rest ih =>
    unfold applyLoop
    dsimp only
    split_ifs with h1 h2
    · exact ih st
    · exact ih _
    · split
      · exact single_op_book ..
      · exact bookKept_trans (single_op_book ..) (ih _)

/-- Any `apply_ops` call that raises leaves `revision` and
`applied_op_ids` exactly as they were. -/
theorem apply_ops_error_book (s : Scene) (ops : List Op) (p : SafetyPolicy)
    (er : Bool) (s' : Scene) (e : String)
    (h : apply_ops s ops p er = (s', .error e)) :
    s'.revision = s.revision ∧ s'.applied_op_ids = s.applied_op_ids := by
  unfold apply_ops at h
  dsimp only at h
  by_cases h1 : (ops.length : Int) > p.max_patch_ops_per_turn
  · rw [if_pos h1] at h
    injection h with hs he
    subst hs
    exact ⟨rfl, rfl⟩
  rw [if_neg h1] at h
  by_cases h2 : (looks_like_rebuild s (normalize_ops ops) && !er) = true
  · rw [if_pos h2] at h
    injection h with hs he
    subst hs
    exact ⟨rfl, rfl⟩
  rw [if_neg h2] at h
  revert h
  split
  · intro h
    injection h with hs he
    subst hs
    exact applyLoop_book ..
  · split
    · intro h
      injection h with hs he
      subst hs
      exact applyLoop_book ..
    · intro h
      injection h with hs he
      exact absurd he (by simp)

/-! ## C1 -/

/-- C1: for every scene and every op batch for which `apply_ops` returns
without raising (including an empty batch and a batch consisting only of
already-applied op ids), the scene revision after the call equals the
revision before the call plus exactly 1. -/
theorem revision_increments_by_one_on_success (s : Scene) (ops : List Op)
    (p : SafetyPolicy) (er : Bool) (s' : Scene) (r : ApplyResult)
    (h : apply_ops s ops p er = (s', .ok r)) :
    s'.revision = s.revision + 1 := by
  unfold apply_ops at h
  dsimp only at h
  by_cases h1 : (ops.length : Int) > p.max_patch_ops_per_turn
  · rw [if_pos h1] at h
    injection h with hs he
    exact absurd he (by simp)
  rw [if_neg h1] at h
  by_cases h2 : (looks_like_rebuild s (normalize_ops ops) && !er) = true
  · rw [if_pos h2] at h
    injection h with hs he
    exact absurd he (by simp)
  rw [if_neg h2] at h
  revert h
  split
  · intro h
    injection h with hs he
    exact absurd he (by simp)
  · split
    · intro h
      injection h with hs he
      exact absurd he (by simp)
    · intro h
      injection h with hs he
      subst hs
      have hb := applyLoop_book p (normalize_ops ops)
        ⟨s, pySet s.applied_op_ids, [], [], none⟩
      exact congrArg (· + 1) hb.1

/-- A small concrete policy for witnesses. -/
def policyW : SafetyPolicy := ⟨10, 10, 10, 10, 10, 10, 10, 30⟩

/-- Witness for C1: the empty batch on a fresh scene commits and bumps
the revision from 0 to 1. -/
theorem revision_increments_by_one_on_success_witness :
    (apply_ops (new_scene_state "w") [] policyW false).1.revision
      = (new_scene_state "w").revision + 1 :=
  revision_increments_by_one_on_success (new_scene_state "w") [] policyW false _ _ rfl

/-! ## C2 -/

/-- A batch whose second op references a missing entity: the eagerly
applied first op is kept, the failure aborts the rest. -/
def c2ops : List Op :=
  [ { op := "createEntity", op_id := some "a", entity_id := "fish", kind := "fish" }
  , { op := "updateEntity", op_id := some "b", entity_id := "ghost" } ]

/-- C2: whenever `apply_ops` raises partway through the op loop, the
revision and `applied_op_ids` are unchanged from before the call (first
conjunct, proved for every raising call), while the content maps may
retain the mutations of the ops that succeeded before the failing one —
witnessed by a batch whose first op has visibly mutated `entities` when
the second raises (second conjunct: no rollback). -/
theorem failed_batch_keeps_revision_and_op_ids :
    (∀ (s : Scene) (ops : List Op) (p : SafetyPolicy) (er : Bool) (s' : Scene) (e : String),
        apply_ops s ops p er = (s', .error e) →
          s'.revision = s.revision ∧ s'.applied_op_ids = s.applied_op_ids) ∧
    ((apply_ops (new_scene_state "c2") c2ops policyW false).2
        = .error "unknown_entity_id" ∧
      (apply_ops (new_scene_state "c2") c2ops policyW false).1.entities
        ≠ (new_scene_state "c2").entities) := by
  refine ⟨apply_ops_error_book, rfl, fun h => ?_⟩
  exact absurd (congrArg List.length h) (by decide)

/-- Witness for C2: the concrete failing batch from the claim theorem
leaves revision 0 and an empty committed-op set behind. -/
theorem failed_batch_keeps_revision_and_op_ids_witness :
    (apply_ops (new_scene_state "c2") c2ops policyW false).1.revision
        = (new_scene_state "c2").revision ∧
      (apply_ops (new_scene_state "c2") c2ops policyW false).1.applied_op_ids
        = (new_scene_state "c2").applied_op_ids :=
  failed_batch_keeps_revision_and_op_ids.1 (new_scene_state "c2") c2ops policyW false
    _ "unknown_entity_id" rfl

/-! ## C3 -/

theorem mem_pySet (l : List String) : ∀ a, a ∈ pySet l ↔ a ∈ l := by
  induction l with
  | nil => intro a; simp [pySet]
  | cons x rest ih =>
    intro a
    unfold pySet
    dsimp only
    split_ifs with h
    · rw [ih]
      constructor
      · exact fun hm => List.mem_cons_of_mem x hm
      · intro hm
        rcases List.mem_cons.mp hm with h1 | h1
        · exact h1 ▸ ((ih x).mp h)
        · exact h1
    · simp [ih]

/-- A batch with fewer than three ops can never look like a rebuild. -/
theorem looks_like_rebuild_short (s : Scene) (l : List Op) (h : l.length < 3) :
    looks_like_rebuild s l = false := by
  unfold looks_like_rebuild
  dsimp only
  split
  · rfl
  · apply decide_eq_false
    rintro ⟨hd, -, -⟩
    have h1 := List.length_filter_le (fun o => o.op == "destroyEntity") l
    omega

/-- One duplicate op only records a warning and leaves the loop state
otherwise unchanged. -/
theorem applyLoop_dup (p : SafetyPolicy) (nop : Op) (st : LoopState)
    (h1 : pyStrip (nop.op_id.getD "") ≠ "")
    (h2 : pyStrip (nop.op_id.getD "") ∈ st.seen) :
    applyLoop p [nop] st =
      { st with warns := st.warns ++ ["op_duplicate_ignored:" ++ pyStrip (nop.op_id.getD "")] } := by
  unfold applyLoop
  dsimp only
  rw [if_neg h1, if_pos h2]
  rfl

/-- Scene and policy showing that a duplicate-only batch can still raise:
the scene already exceeds the 2D entity cap (reachable, because a failed
batch keeps its successful mutations while cap checks only run at the
end), so `_enforce_caps` fails the call. -/
def c3scene : Scene :=
  { new_scene_state "c3" with
    entities := [("entity:a#001", [("kind", .str "shape")]), ("entity:b#001", []),
      ("entity:c#001", [])]
    applied_op_ids := ["a"] }

def c3policy : SafetyPolicy := ⟨2, 10, 10, 10, 10, 10, 10, 30⟩

def c3op : Op := { op := "createEntity", op_id := some "a", entity_id := "x", kind := "shape" }

/-- Counterexample to C3 as stated: re-submitting the already-applied op
id "a" alone raises `patch_budget_exceeded` (the scene is over the 2D
cap), contradicting "does not raise"; the content maps are still
unchanged. -/
theorem duplicate_resubmission_can_raise :
    "a" ∈ c3scene.applied_op_ids ∧
      apply_ops c3scene [c3op] c3policy false = (c3scene, .error "patch_budget_exceeded") :=
  ⟨by decide, rfl⟩

/-- C3 (amended): re-submitting an already-committed op id leaves the
entities, materials, behaviors and bindings maps unchanged and produces
the `op_duplicate_ignored:<op_id>` warning; it does not raise provided
the scene currently satisfies the policy caps and the policy admits at
least one op per batch. -/
theorem duplicate_resubmission_is_content_noop (s : Scene) (op : Op) (p : SafetyPolicy)
    (hid : pyStrip (op.op_id.getD "op-00000") ≠ "")
    (hmem : pyStrip (op.op_id.getD "op-00000") ∈ s.applied_op_ids)
    (hcap : (1 : Int) ≤ p.max_patch_ops_per_turn)
    (hcaps : enforce_caps s p = none) :
    ∃ s' r, apply_ops s [op] p false = (s', .ok r) ∧
      s'.entities = s.entities ∧ s'.materials = s.materials ∧
      s'.behaviors = s.behaviors ∧ s'.entity_to_material = s.entity_to_material ∧
      r.warnings = ["op_duplicate_ignored:" ++ pyStrip (op.op_id.getD "op-00000")] := by
  have hnorm : normalize_ops [op] = [normalizeOp 0 op] := rfl
  have hopid : (normalizeOp 0 op).op_id.getD "" = op.op_id.getD "op-00000" := rfl
  unfold apply_ops
  dsimp only
  rw [hnorm]
  rw [if_neg (show ¬ ((([op] : List Op).length : Int) > p.max_patch_ops_per_turn) by
    simp only [List.length_singleton]; omega)]
  rw [looks_like_rebuild_short s _ (by simp)]
  simp only [Bool.false_and, Bool.false_eq_true, if_false]
  rw [applyLoop_dup p (normalizeOp 0 op) _ (by rw [hopid]; exact hid)
    (by rw [hopid]; exact (mem_pySet _ _).mpr hmem)]

  dsimp only
  rw [hcaps]
  exact ⟨_, _, rfl, rfl, rfl, rfl, rfl, by rw [hopid]; simp⟩

/-- Witness for the amended C3 theorem at a concrete in-cap scene. -/
def c3wscene : Scene := { new_scene_state "c3w" with applied_op_ids := ["a"] }

theorem duplicate_resubmission_is_content_noop_witness :
    ∃ s' r, apply_ops c3wscene [c3op] policyW false = (s', .ok r) ∧
      s'.entities = c3wscene.entities ∧ s'.materials = c3wscene.materials ∧
      s'.behaviors = c3wscene.behaviors ∧ s'.entity_to_material = c3wscene.entity_to_material ∧
      r.warnings = ["op_duplicate_ignored:" ++ pyStrip ((c3op.op_id).getD "op-00000")] :=
  duplicate_resubmission_is_content_noop c3wscene c3op policyW
    (by decide) (by decide) (by decide) rfl

/-! ## Uniform update staging (shared by C4 and C5) -/

/-- With the material resolved, the uniform named, the effective rate
positive and the rate bookkeeping read off, `_apply_uniform_update` is
the rate gate followed by validation and the write. -/
theorem apply_uniform_update_eq (s : Scene) (op : Op) (p : SafetyPolicy)
    (mid : String) (s1 : Scene) (mat : Rec) (rid : String) (hz_eff : ℚ) (prev : Int)
    (h_cid : canonical_id s MATERIAL_NS op.material_id = (mid, s1))
    (h_mat : List.lookup mid s1.materials = some mat)
    (h_name : pyStrip op.uniform ≠ "")
    (h_rid : pyStrip (pyStr ((List.lookup "recipe_id" mat).getD (.str ""))) = rid)
    (h_eff : (match (if rid ≠ "" then get_recipe rid else none) with
      | some recipe =>
        match List.lookup (pyStrip op.uniform) recipe.uniform_schema with
        | some rule => min p.max_uniform_update_hz rule.max_update_hz
        | none => p.max_uniform_update_hz
      | none => p.max_uniform_update_hz) = hz_eff)
    (h_pos : 0 < hz_eff)
    (h_prev : (List.lookup (mid ++ ":" ++ pyStrip op.uniform) s1.uniform_update_at).getD (-1)
      = prev) :
    apply_uniform_update s op p =
      if prev ≥ 0 ∧ op.at_ms - prev < roundDiv1000 hz_eff then
        (s1, some "uniform_rate_limited")
      else
        match (if rid ≠ "" then
                 match validate_uniform rid (pyStrip op.uniform) op.value with
                 | (true, _, numeric) => Except.ok (numeric.getD 0)
                 | (false, reason, _) => Except.error (reason.getD "uniform_validation_failed")
               else
                 match pyFloat op.value with
                 | some q => Except.ok q
                 | none => Except.error "uniform_not_numeric" : Except String ℚ) with
        | .error code => (s1, some code)
        | .ok value =>
          ({ s1 with
              materials := ainsert s1.materials mid
                (ainsert (ainsert mat "uniforms"
                    (.obj (ainsert (asObj ((List.lookup "uniforms" mat).getD (.obj [])))
                      (pyStrip op.uniform) (.rat value))))
                  "updated_at_ms" (.int op.at_ms))
              uniform_update_at := ainsert s1.uniform_update_at
                (mid ++ ":" ++ pyStrip op.uniform) op.at_ms }, none) := by
  unfold apply_uniform_update
  dsimp only
  rw [h_cid]
  dsimp only
  rw [h_mat]
  dsimp only
  rw [if_neg h_name, h_rid, h_prev, h_eff, if_neg (not_le.mpr h_pos)]

/-- Every failure reason produced by `validate_uniform` (with the engine
fallback applied) differs from the rate-limit code. -/
theorem validate_code_ne_rl (rid u : String) (v : JVal) (b : Bool)
    (reason : Option String) (n : Option ℚ)
    (h : validate_uniform rid u v = (b, reason, n)) :
    reason.getD "uniform_validation_failed" ≠ "uniform_rate_limited" := by
  unfold validate_uniform at h
  repeat' split at h
  all_goals
    cases h
    decide

/-- A one-op batch with a fresh op id reduces to its single op; a raised
error propagates with the mutated scene. -/
theorem apply_ops_single_fresh_err (s : Scene) (op : Op) (p : SafetyPolicy) (e : String)
    (hne : pyStrip ((normalizeOp 0 op).op_id.getD "") ≠ "")
    (hnm : pyStrip ((normalizeOp 0 op).op_id.getD "") ∉ s.applied_op_ids)
    (hcap : (1 : Int) ≤ p.max_patch_ops_per_turn)
    (herr : (apply_single_op s (normalizeOp 0 op) p).2 = some e) :
    apply_ops s [op] p false = ((apply_single_op s (normalizeOp 0 op) p).1, .error e) := by
  unfold apply_ops
  dsimp only
  rw [if_neg (show ¬ ((([op] : List Op).length : Int) > p.max_patch_ops_per_turn) by
    simp only [List.length_singleton]; omega)]
  rw [show normalize_ops [op] = [normalizeOp 0 op] from rfl]
  rw [looks_like_rebuild_short s _ (by simp)]
  simp only [Bool.false_and, Bool.false_eq_true, if_false]
  unfold applyLoop
  dsimp only
  rw [if_neg hne, if_neg (fun hmm => hnm ((mem_pySet _ _).mp hmm))]
  rw [herr]

/-! ## C4 -/

/-- Scene for the C4 counterexample: a recipe-backed water material with
a previously accepted `density` update at t=0. -/
def c4scene : Scene :=
  { new_scene_state "c4" with
    materials := [("mat:water#001", [("recipe_id", .str "water_volume_tint")])]
    uniform_update_at := [("mat:water#001:density", 0)] }

/-- `density := 5` is far outside the declared range `[0, 1]`. -/
def c4op : Op :=
  { op := "setUniform", op_id := some "u", material_id := "mat:water#001",
    uniform := "density", value := .rat 5, at_ms := 10 }

/-- Counterexample to C4 as stated: an out-of-range `setUniform` arriving
inside the rate window fails with `uniform_rate_limited`, not
`uniform_out_of_range` (the rate gate runs before range validation), even
though the value is outside the recipe range. -/
theorem out_of_range_can_be_masked_by_rate_limit :
    apply_ops c4scene [c4op] policyW false = (c4scene, .error "uniform_rate_limited") ∧
      validate_uniform "water_volume_tint" "density" (.rat 5)
        = (false, some "uniform_out_of_range", none) :=
  ⟨rfl, rfl⟩

/-- C4 (amended): an out-of-range `setUniform` on a recipe-backed uniform
fails with `uniform_out_of_range` whenever it passes the rate gate (no
prior accepted update, or the gap is at least the rate window); inside
the rate window it fails with `uniform_rate_limited` instead. -/
theorem out_of_range_rejected_when_not_rate_limited
    (s : Scene) (op : Op) (p : SafetyPolicy) (mid : String) (s1 : Scene) (mat : Rec)
    (rid : String) (recipe : ShaderRecipe) (rule : UniformRule) (q : ℚ) (prev : Int)
    (h_op : op.op = "setUniform")
    (h_at : 0 ≤ op.at_ms)
    (h_id : pyStrip ((normalizeOp 0 op).op_id.getD "") ≠ "")
    (h_nm : pyStrip ((normalizeOp 0 op).op_id.getD "") ∉ s.applied_op_ids)
    (h_cap : (1 : Int) ≤ p.max_patch_ops_per_turn)
    (h_cid : canonical_id s MATERIAL_NS op.material_id = (mid, s1))
    (h_mat : List.lookup mid s1.materials = some mat)
    (h_name : pyStrip op.uniform ≠ "")
    (h_rid : pyStrip (pyStr ((List.lookup "recipe_id" mat).getD (.str ""))) = rid)
    (h_ne : rid ≠ "")
    (h_rec : get_recipe rid = some recipe)
    (h_rule : List.lookup (pyStrip op.uniform) recipe.uniform_schema = some rule)
    (h_pos : 0 < min p.max_uniform_update_hz rule.max_update_hz)
    (h_prev : (List.lookup (mid ++ ":" ++ pyStrip op.uniform) s1.uniform_update_at).getD (-1)
      = prev)
    (h_norl : ¬ (prev ≥ 0 ∧
      op.at_ms - prev < roundDiv1000 (min p.max_uniform_update_hz rule.max_update_hz)))
    (h_val : pyFloat op.value = some q)
    (h_range : q < rule.min_value ∨ q > rule.max_value) :
    apply_ops s [op] p false = (s1, .error "uniform_out_of_range") := by
  have h_validate : validate_uniform rid (pyStrip op.uniform) op.value
      = (false, some "uniform_out_of_range", none) := by
    unfold validate_uniform
    rw [h_rec]
    dsimp only
    rw [h_rule]
    dsimp only
    rw [h_val]
    dsimp only
    rw [if_pos h_range]
  have h_eff : (match (if rid ≠ "" then get_recipe rid else none) with
      | some recipe =>
        match List.lookup (pyStrip op.uniform) recipe.uniform_schema with
        | some rule => min p.max_uniform_update_hz rule.max_update_hz
        | none => p.max_uniform_update_hz
      | none => p.max_uniform_update_hz)
      = min p.max_uniform_update_hz rule.max_update_hz := by
    rw [if_pos h_ne, h_rec]
    dsimp only
    rw [h_rule]
  have hsingle : apply_single_op s (normalizeOp 0 op) p
      = (s1, some "uniform_out_of_range") := by
    rw [dispatchSetUniform s (normalizeOp 0 op) p (by simp only [normalizeOp]; exact h_op)]
    rw [apply_uniform_update_eq s (normalizeOp 0 op) p mid s1 mat rid
      (min p.max_uniform_update_hz rule.max_update_hz) prev
      (by simp only [normalizeOp]; exact h_cid) h_mat
      (by simp only [normalizeOp]; exact h_name)
      h_rid (by simp only [normalizeOp]; exact h_eff) h_pos
      (by simp only [normalizeOp]; exact h_prev)]
    rw [if_neg (by simp only [normalizeOp, max_eq_right h_at]; exact h_norl)]
    rw [if_pos h_ne]
    simp only [normalizeOp]
    rw [h_validate]
    rfl
  have := apply_ops_single_fresh_err s op p "uniform_out_of_range" h_id h_nm h_cap
    (by rw [hsingle])
  rw [this, hsingle]

/-- Witness scene for the amended C4: same material, but the previous
accepted update is 100 ms old, outside the 33 ms window. -/
def c4wscene : Scene :=
  { new_scene_state "c4w" with
    materials := [("mat:water#001", [("recipe_id", .str "water_volume_tint")])]
    uniform_update_at := [("mat:water#001:density", 0)] }

def c4wop : Op :=
  { op := "setUniform", op_id := some "u", material_id := "mat:water#001",
    uniform := "density", value := .rat 5, at_ms := 100 }

theorem out_of_range_rejected_when_not_rate_limited_witness :
    apply_ops c4wscene [c4wop] policyW false = (c4wscene, .error "uniform_out_of_range") :=
  out_of_range_rejected_when_not_rate_limited c4wscene c4wop policyW
    "mat:water#001" c4wscene [("recipe_id", .str "water_volume_tint")]
    "water_volume_tint"
    { recipe_id := "water_volume_tint", version := "1.0.0",
      uniform_schema :=
        [ ("density", ⟨"number", mkRat 36 100, 0, 1, 30⟩)
        , ("blue_shift", ⟨"number", mkRat 42 100, 0, 1, 30⟩) ] }
    ⟨"number", mkRat 36 100, 0, 1, 30⟩ 5 0
    rfl (by decide) (by decide) (by decide) (by decide) rfl rfl (by decide) rfl
    (by decide) rfl rfl (by decide) rfl (by decide) rfl (by decide)

/-! ## C5 -/

/-- Scene for the C5 counterexample: a glass material whose recipe allows
30 Hz on `ior`, under a policy capped at 10 Hz. -/
def c5scene : Scene :=
  { new_scene_state "c5" with
    materials := [("mat:glass#001", [("recipe_id", .str "glass_refraction_like")])]
    uniform_update_at := [("mat:glass#001:ior", 0)] }

def c5policy : SafetyPolicy := ⟨10, 10, 10, 10, 10, 10, 10, 10⟩

/-- An in-range `ior` update 50 ms after the previous accepted one. -/
def c5op : Op :=
  { op := "setUniform", op_id := some "u", material_id := "mat:glass#001",
    uniform := "ior", value := .rat (mkRat 13 10), at_ms := 50 }

/-- Counterexample to C5 as stated: with a 10 Hz policy the op is
rejected as rate limited even though `at_ms - previous = 50` is at least
`round(1000/30) = 33`, the window the claim derives from the recipe rate
alone; the engine windows on `min(policy rate, recipe rate)`, not on the
recipe rate. -/
theorem rate_window_not_recipe_rate_alone :
    apply_ops c5scene [c5op] c5policy false = (c5scene, .error "uniform_rate_limited") ∧
      ¬ ((50 : Int) - 0 < roundDiv1000 30) :=
  ⟨rfl, by decide⟩

/-- C5 (amended): the rate window is `round(1000/hz_eff)` where `hz_eff`
is the *minimum* of the policy rate and the recipe's per-uniform rate
when the material is recipe-backed and the uniform is in the schema, and
the policy rate otherwise; a `setUniform` is rejected with
`uniform_rate_limited` exactly when a prior accepted update exists and
`at_ms - previous` is strictly below that window. -/
theorem rate_limited_iff_window
    (s : Scene) (op : Op) (p : SafetyPolicy) (mid : String) (s1 : Scene) (mat : Rec)
    (rid : String) (hz_eff : ℚ) (prev : Int)
    (h_op : op.op = "setUniform")
    (h_cid : canonical_id s MATERIAL_NS op.material_id = (mid, s1))
    (h_mat : List.lookup mid s1.materials = some mat)
    (h_name : pyStrip op.uniform ≠ "")
    (h_rid : pyStrip (pyStr ((List.lookup "recipe_id" mat).getD (.str ""))) = rid)
    (h_eff : (match (if rid ≠ "" then get_recipe rid else none) with
      | some recipe =>
        match List.lookup (pyStrip op.uniform) recipe.uniform_schema with
        | some rule => min p.max_uniform_update_hz rule.max_update_hz
        | none => p.max_uniform_update_hz
      | none => p.max_uniform_update_hz) = hz_eff)
    (h_pos : 0 < hz_eff)
    (h_prev : (List.lookup (mid ++ ":" ++ pyStrip op.uniform) s1.uniform_update_at).getD (-1)
      = prev) :
    apply_single_op s op p = (s1, some "uniform_rate_limited")
      ↔ (prev ≥ 0 ∧ op.at_ms - prev < roundDiv1000 hz_eff) := by
  rw [dispatchSetUniform s op p h_op]
  rw [apply_uniform_update_eq s op p mid s1 mat rid hz_eff prev
    h_cid h_mat h_name h_rid h_eff h_pos h_prev]
  by_cases hC : prev ≥ 0 ∧ op.at_ms - prev < roundDiv1000 hz_eff
  · rw [if_pos hC]
    exact ⟨fun _ => hC, fun _ => rfl⟩
  · rw [if_neg hC]
    refine ⟨fun hL => absurd ?_ hC, fun hR => absurd hR hC⟩
    exfalso
    revert hL
    by_cases hr : rid ≠ ""
    · rw [if_pos hr]
      rcases hv : validate_uniform rid (pyStrip op.uniform) op.value with ⟨b, reason, n⟩
      cases b
      · dsimp only
        intro hL
        have h2 := congrArg Prod.snd hL
        dsimp only at h2
        have h3 := Option.some.inj h2
        exact validate_code_ne_rl rid (pyStrip op.uniform) op.value false reason n hv h3
      · dsimp only
        intro hL
        have h2 := congrArg Prod.snd hL
        simp at h2
    · rw [if_neg hr]
      rcases hv : pyFloat op.value with - | q
      · dsimp only
        intro hL
        have h2 := congrArg Prod.snd hL
        dsimp only at h2
        have h3 := Option.some.inj h2
        exact absurd h3 (by decide)
      · dsimp only
        intro hL
        have h2 := congrArg Prod.snd hL
        simp at h2

/-- Witness scene for the amended C5: water density updated again 10 ms
after the previous accepted update, inside the 33 ms window of
`min(30 Hz policy, 30 Hz recipe)`. -/
def c5wscene : Scene :=
  { new_scene_state "c5w" with
    materials := [("mat:water#001", [("recipe_id", .str "water_volume_tint")])]
    uniform_update_at := [("mat:water#001:density", 0)] }

def c5wop : Op :=
  { op := "setUniform", op_id := some "u", material_id := "mat:water#001",
    uniform := "density", value := .rat (mkRat 6 10), at_ms := 10 }

theorem rate_limited_iff_window_witness :
    apply_single_op c5wscene c5wop policyW = (c5wscene, some "uniform_rate_limited") :=
  (rate_limited_iff_window c5wscene c5wop policyW "mat:water#001" c5wscene
    [("recipe_id", .str "water_volume_tint")] "water_volume_tint" 30 0
    rfl rfl rfl (by decide) rfl (by decide) (by decide) rfl).mpr (by decide)

/-! ## C6 -/

theorem countP_enumFrom (f : Op → Bool) (l : List Op) :
    ∀ n, (List.enumFrom n l).countP (fun p => f p.2) = l.countP f := by
  induction l with
  | nil => intro n; rfl
  | cons x rest ih =>
    intro n
    simp only [List.enumFrom, List.countP_cons, ih]

/-- Normalization permutes ops and rewrites only `at_ms`/`op_id`, so any
count over a field it preserves is unchanged. -/
theorem normalize_count (f : Op → Bool) (hf : ∀ idx op, f (normalizeOp idx op) = f op)
    (ops : List Op) :
    (List.filter f (normalize_ops ops)).length = (List.filter f ops).length := by
  rw [← List.countP_eq_length_filter, ← List.countP_eq_length_filter]
  unfold normalize_ops
  dsimp only
  rw [List.countP_map, (List.perm_insertionSort _ _).countP_eq, List.countP_map]
  rw [← countP_enumFrom f ops 0]
  unfold List.enum
  apply List.countP_congr
  intro a ha
  simp only [Function.comp]
  rw [hf]

/-- The integer-churn threshold of the source equals the real-valued
threshold of the spec for integer churn counts. -/
theorem churn_cast (c e : Nat) :
    ((c : ℚ) > max 8 ((e : ℚ) * 2 / 5)) ↔ max 8 (e * 2 / 5) < c := by
  rw [gt_iff_lt, max_lt_iff, max_lt_iff]
  constructor
  · rintro ⟨h1, h2⟩
    refine ⟨by exact_mod_cast h1, ?_⟩
    rw [Nat.div_lt_iff_lt_mul (by norm_num)]
    rw [div_lt_iff₀ (by norm_num)] at h2
    exact_mod_cast h2
  · rintro ⟨h1, h2⟩
    refine ⟨by exact_mod_cast h1, ?_⟩
    rw [div_lt_iff₀ (by norm_num)]
    rw [Nat.div_lt_iff_lt_mul (by norm_num)] at h2
    exact_mod_cast h2

theorem looks_like_rebuild_of (s : Scene) (l : List Op)
    (h_e : ¬ s.entities.length = 0)
    (h_c : 3 ≤ (l.filter (fun o => o.op == "createEntity")).length)
    (h_d : 3 ≤ (l.filter (fun o => o.op == "destroyEntity")).length)
    (h_ch : max 8 (s.entities.length * 2 / 5) <
      (l.filter (fun o => o.op == "createEntity")).length
        + (l.filter (fun o => o.op == "destroyEntity")).length) :
    looks_like_rebuild s l = true := by
  unfold looks_like_rebuild
  dsimp only
  rw [if_neg h_e]
  exact decide_eq_true ⟨h_d, h_c, h_ch⟩

theorem validate_code_ne_sr (rid u : String) (v : JVal) (b : Bool)
    (reason : Option String) (n : Option ℚ)
    (h : validate_uniform rid u v = (b, reason, n)) :
    reason.getD "uniform_validation_failed" ≠ "suspicious_rebuild" := by
  unfold validate_uniform at h
  repeat' split at h
  all_goals
    cases h
    decide

/-- `_enforce_caps` only ever raises `patch_budget_exceeded`. -/
theorem enforce_caps_code (s : Scene) (p : SafetyPolicy) (e : String)
    (h : enforce_caps s p = some e) : e = "patch_budget_exceeded" := by
  unfold enforce_caps at h
  dsimp only at h
  split_ifs at h <;> exact (Option.some.inj h).symm

theorem apply_uniform_update_err_ne_sr (s : Scene) (op : Op) (p : SafetyPolicy) (e : String)
    (h : (apply_uniform_update s op p).2 = some e) : e ≠ "suspicious_rebuild" := by
  unfold apply_uniform_update at h
  dsimp only at h
  repeat' split at h
  all_goals dsimp only at h
  all_goals
    first
    | exact Option.noConfusion h
    | (obtain rfl := (Option.some.inj h).symm; decide)
    | (rename_i heq
       obtain rfl := (Option.some.inj h).symm
       repeat' split at heq
       all_goals
         first
         | exact Except.noConfusion heq
         | (obtain rfl := (Except.error.inj heq).symm; decide)
         | (rename_i hval
            obtain rfl := (Except.error.inj heq).symm
            exact validate_code_ne_sr _ _ _ _ _ _ hval))

/-- No op-level error carries the rebuild-guard code. -/
theorem single_op_err_ne_sr (s : Scene) (op : Op) (p : SafetyPolicy) (e : String)
    (h : (apply_single_op s op p).2 = some e) : e ≠ "suspicious_rebuild" := by
  by_cases h1 : op.op = "createEntity"
  · rw [dispatchCreateEntity s op p h1] at h
    unfold opCreateEntity at h
    try dsimp only at h
    repeat' split at h
    all_goals try dsimp only at h
    all_goals
      first
      | exact Option.noConfusion h
      | (obtain rfl := (Option.some.inj h).symm; decide)
      | (rename_i heq
         obtain rfl := (Option.some.inj h).symm
         repeat' split at heq
         all_goals
           first
           | exact Option.noConfusion heq
           | (obtain rfl := (Option.some.inj heq).symm; decide))
  by_cases h2 : op.op = "updateEntity"
  · rw [dispatchUpdateEntity s op p h2] at h
    unfold opUpdateEntity at h
    try dsimp only at h
    repeat' split at h
    all_goals try dsimp only at h
    all_goals
      first
      | exact Option.noConfusion h
      | (obtain rfl := (Option.some.inj h).symm; decide)
      | (rename_i heq
         obtain rfl := (Option.some.inj h).symm
         repeat' split at heq
         all_goals
           first
           | exact Option.noConfusion heq
           | (obtain rfl := (Option.some.inj heq).symm; decide))
  by_cases h3 : op.op = "destroyEntity"
  · rw [dispatchDestroyEntity s op p h3] at h
    unfold opDestroyEntity at h
    try dsimp only at h
    repeat' split at h
    all_goals try dsimp only at h
    all_goals
      first
      | exact Option.noConfusion h
      | (obtain rfl := (Option.some.inj h).symm; decide)
      | (rename_i heq
         obtain rfl := (Option.some.inj h).symm
         repeat' split at heq
         all_goals
           first
           | exact Option.noConfusion heq
           | (obtain rfl := (Option.some.inj heq).symm; decide))
  by_cases h4 : op.op = "createMaterial"
  · rw [dispatchCreateMaterial s op p h4] at h
    unfold opCreateMaterial at h
    try dsimp only at h
    repeat' split at h
    all_goals try dsimp only at h
    all_goals
      first
      | exact Option.noConfusion h
      | (obtain rfl := (Option.some.inj h).symm; decide)
      | (rename_i heq
         obtain rfl := (Option.some.inj h).symm
         repeat' split at heq
         all_goals
           first
           | exact Option.noConfusion heq
           | (obtain rfl := (Option.some.inj heq).symm; decide))
  by_cases h5 : op.op = "updateMaterial"
  · rw [dispatchUpdateMaterial s op p h5] at h
    unfold opUpdateMaterial at h
    try dsimp only at h
    repeat' split at h
    all_goals try dsimp only at h
    all_goals
      first
      | exact Option.noConfusion h
      | (obtain rfl := (Option.some.inj h).symm; decide)
      | (rename_i heq
         obtain rfl := (Option.some.inj h).symm
         repeat' split at heq
         all_goals
           first
           | exact Option.noConfusion heq
           | (obtain rfl := (Option.some.inj heq).symm; decide))
  by_cases h6 : op.op = "destroyMaterial"
  · rw [dispatchDestroyMaterial s op p h6] at h
    unfold opDestroyMaterial at h
    try dsimp only at h
    repeat' split at h
    all_goals try dsimp only at h
    all_goals
      first
      | exact Option.noConfusion h
      | (obtain rfl := (Option.some.inj h).symm; decide)
      | (rename_i heq
         obtain rfl := (Option.some.inj h).symm
         repeat' split at heq
         all_goals
           first
           | exact Option.noConfusion heq
           | (obtain rfl := (Option.some.inj heq).symm; decide))
  by_cases h7 : op.op = "applyMaterial"
  · rw [dispatchApplyMaterial s op p h7] at h
    unfold opApplyMaterial at h
    try dsimp only at h
    repeat' split at h
    all_goals try dsimp only at h
    all_goals
      first
      | exact Option.noConfusion h
      | (obtain rfl := (Option.some.inj h).symm; decide)
      | (rename_i heq
         obtain rfl := (Option.some.inj h).symm
         repeat' split at heq
         all_goals
           first
           | exact Option.noConfusion heq
           | (obtain rfl := (Option.some.inj heq).symm; decide))
  by_cases h8 : op.op = "setUniform"
  · rw [dispatchSetUniform s op p h8] at h
    exact apply_uniform_update_err_ne_sr s op p e h
  by_cases h9 : op.op = "createBehavior"
  · rw [dispatchCreateBehavior s op p h9] at h
    unfold opCreateBehavior at h
    try dsimp only at h
    repeat' split at h
    all_goals try dsimp only at h
    all_goals
      first
      | exact Option.noConfusion h
      | (obtain rfl := (Option.some.inj h).symm; decide)
      | (rename_i heq
         obtain rfl := (Option.some.inj h).symm
         repeat' split at heq
         all_goals
           first
           | exact Option.noConfusion heq
           | (obtain rfl := (Option.some.inj heq).symm; decide))
  by_cases h10 : op.op = "updateBehavior"
  · rw [dispatchUpdateBehavior s op p h10] at h
    unfold opUpdateBehavior at h
    try dsimp only at h
    repeat' split at h
    all_goals try dsimp only at h
    all_goals
      first
      | exact Option.noConfusion h
      | (obtain rfl := (Option.some.inj h).symm; decide)
      | (rename_i heq
         obtain rfl := (Option.some.inj h).symm
         repeat' split at heq
         all_goals
           first
           | exact Option.noConfusion heq
           | (obtain rfl := (Option.some.inj heq).symm; decide))
  by_cases h11 : op.op = "destroyBehavior"
  · rw [dispatchDestroyBehavior s op p h11] at h
    unfold opDestroyBehavior at h
    try dsimp only at h
    repeat' split at h
    all_goals try dsimp only at h
    all_goals
      first
      | exact Option.noConfusion h
      | (obtain rfl := (Option.some.inj h).symm; decide)
      | (rename_i heq
         obtain rfl := (Option.some.inj h).symm
         repeat' split at heq
         all_goals
           first
           | exact Option.noConfusion heq
           | (obtain rfl := (Option.some.inj heq).symm; decide))
  by_cases h12 : op.op = "trigger"
  · rw [dispatchTrigger s op p h12] at h
    unfold opTrigger at h
    try dsimp only at h
    repeat' split at h
    all_goals try dsimp only at h
    all_goals
      first
      | exact Option.noConfusion h
      | (obtain rfl := (Option.some.inj h).symm; decide)
      | (rename_i heq
         obtain rfl := (Option.some.inj h).symm
         repeat' split at heq
         all_goals
           first
           | exact Option.noConfusion heq
           | (obtain rfl := (Option.some.inj heq).symm; decide))
  have hmem : op.op ∉ ["createEntity", "updateEntity", "destroyEntity", "createMaterial",
      "updateMaterial", "destroyMaterial", "applyMaterial", "setUniform",
      "createBehavior", "updateBehavior", "destroyBehavior", "trigger"] := by
    simp only [List.mem_cons, List.not_mem_nil, or_false, not_or]
    exact ⟨h1, h2, h3, h4, h5, h6, h7, h8, h9, h10, h11, h12⟩
  rw [dispatchUnsupported s op p hmem] at h
  dsimp only at h
  obtain rfl := (Option.some.inj h).symm
  decide

/-- The op loop only surfaces op-level error codes. -/
theorem applyLoop_err_ne_sr (p : SafetyPolicy) (ops : List Op) (st : LoopState) (e : String)
    (hst : ∀ e0, st.err = some e0 → e0 ≠ "suspicious_rebuild")
    (h : (applyLoop p ops st).err = some e) : e ≠ "suspicious_rebuild" := by
  induction ops generalizing st with
  | nil => exact hst e h
  | cons op rest ih =>
    unfold applyLoop at h
    dsimp only at h
    split_ifs at h with h1 h2
    · exact ih st hst h
    · refine ih _ ?_ h
      exact hst
    · revert h
      split
      · rename_i e1 hsing
        intro h
        dsimp only at h
        obtain rfl := (Option.some.inj h).symm
        exact single_op_err_ne_sr _ _ _ _ (by rw [hsing])
      · intro h
        refine ih _ ?_ h
        exact hst

/-- With `explicit_rebuild := true` no raised error carries the
`suspicious_rebuild` code. -/
theorem apply_ops_explicit_no_sr (s : Scene) (ops : List Op) (p : SafetyPolicy)
    (s' : Scene) (e : String)
    (h : apply_ops s ops p true = (s', .error e)) : e ≠ "suspicious_rebuild" := by
  unfold apply_ops at h
  dsimp only at h
  by_cases h1 : (ops.length : Int) > p.max_patch_ops_per_turn
  · rw [if_pos h1] at h
    injection h with hs he
    obtain rfl := (Except.error.inj he).symm
    decide
  rw [if_neg h1] at h
  rw [if_neg (by simp)] at h
  revert h
  split
  · rename_i herr
    intro h
    injection h with hs he
    obtain rfl := (Except.error.inj he).symm
    exact applyLoop_err_ne_sr p (normalize_ops ops) _ _ (by intro e0 h0; cases h0) herr
  · split
    · rename_i hcaps
      intro h
      injection h with hs he
      obtain rfl := (Except.error.inj he).symm
      rw [enforce_caps_code _ _ _ hcaps]
      decide
    · intro h
      injection h with hs he
      exact absurd he (by simp)

/-- C6 counterexample inputs: one existing entity, nine churn ops, and a
policy op budget of eight. -/
def c6scene : Scene :=
  { new_scene_state "c6" with entities := [("entity:a#001", [("kind", .str "shape")])] }

def c6policy : SafetyPolicy := ⟨100, 100, 8, 100, 100, 100, 100, 30⟩

def c6ops : List Op :=
  [ { op := "createEntity", op_id := some "a", entity_id := "e1", kind := "shape" }
  , { op := "createEntity", op_id := some "b", entity_id := "e2", kind := "shape" }
  , { op := "createEntity", op_id := some "c", entity_id := "e3", kind := "shape" }
  , { op := "createEntity", op_id := some "d", entity_id := "e4", kind := "shape" }
  , { op := "createEntity", op_id := some "e", entity_id := "e5", kind := "shape" }
  , { op := "destroyEntity", op_id := some "f", entity_id := "e1" }
  , { op := "destroyEntity", op_id := some "g", entity_id := "e2" }
  , { op := "destroyEntity", op_id := some "h", entity_id := "e3" }
  , { op := "destroyEntity", op_id := some "i", entity_id := "e4" } ]

/-- Counterexample to C6 as stated: this batch meets every rebuild
condition, yet with an op budget of eight the call raises
`patch_budget_exceeded` (the budget precheck runs first), not
`suspicious_rebuild`. -/
theorem rebuild_guard_preempted_by_budget :
    looks_like_rebuild c6scene (normalize_ops c6ops) = true ∧
      apply_ops c6scene c6ops c6policy false = (c6scene, .error "patch_budget_exceeded") :=
  ⟨rfl, rfl⟩

/-- C6 (amended): on a scene with at least one entity, a batch within the
policy op budget holding at least 3 `destroyEntity` and at least 3
`createEntity` ops whose combined count strictly exceeds
`max(8, 0.4 × existing)` is rejected with `suspicious_rebuild` before any
op is applied when `explicit_rebuild` is false; with
`explicit_rebuild := true` no `suspicious_rebuild` error can be raised. -/
theorem rebuild_guard (s : Scene) (ops : List Op) (p : SafetyPolicy)
    (h_e : ¬ s.entities.length = 0)
    (h_cap : (ops.length : Int) ≤ p.max_patch_ops_per_turn)
    (h_c : 3 ≤ (ops.filter (fun o => o.op == "createEntity")).length)
    (h_d : 3 ≤ (ops.filter (fun o => o.op == "destroyEntity")).length)
    (h_churn : ((((ops.filter (fun o => o.op == "createEntity")).length
        + (ops.filter (fun o => o.op == "destroyEntity")).length : Nat) : ℚ))
        > max 8 ((s.entities.length : ℚ) * 2 / 5)) :
    apply_ops s ops p false = (s, .error "suspicious_rebuild") ∧
      ∀ s' e, apply_ops s ops p true = (s', .error e) → e ≠ "suspicious_rebuild" := by
  constructor
  · have hc' : 3 ≤ ((normalize_ops ops).filter (fun o => o.op == "createEntity")).length := by
      rw [normalize_count (fun o => o.op == "createEntity") (fun idx op => rfl)]
      exact h_c
    have hd' : 3 ≤ ((normalize_ops ops).filter (fun o => o.op == "destroyEntity")).length := by
      rw [normalize_count (fun o => o.op == "destroyEntity") (fun idx op => rfl)]
      exact h_d
    have hch' : max 8 (s.entities.length * 2 / 5) <
        ((normalize_ops ops).filter (fun o => o.op == "createEntity")).length
          + ((normalize_ops ops).filter (fun o => o.op == "destroyEntity")).length := by
      rw [normalize_count (fun o => o.op == "createEntity") (fun idx op => rfl),
        normalize_count (fun o => o.op == "destroyEntity") (fun idx op => rfl)]
      exact (churn_cast _ _).mp h_churn
    unfold apply_ops
    dsimp only
    rw [if_neg (by omega)]
    rw [looks_like_rebuild_of s (normalize_ops ops) h_e hc' hd' hch']
    simp
  · exact fun s' e h => apply_ops_explicit_no_sr s ops p s' e h

/-- Witness inputs for the amended C6 (budget 20, one entity). -/
def c6wscene : Scene :=
  { new_scene_state "c6w" with entities := [("entity:a#001", [("kind", .str "shape")])] }

def c6wpolicy : SafetyPolicy := ⟨100, 100, 20, 100, 100, 100, 100, 30⟩

theorem rebuild_guard_witness :
    apply_ops c6wscene c6ops c6wpolicy false = (c6wscene, .error "suspicious_rebuild") :=
  (rebuild_guard c6wscene c6ops c6wpolicy (by decide) (by decide) (by decide) (by decide)
    (by
      have h1 : (List.filter (fun o => o.op == "createEntity") c6ops).length = 5 := rfl
      have h2 : (List.filter (fun o => o.op == "destroyEntity") c6ops).length = 4 := rfl
      have h3 : c6wscene.entities.length = 1 := rfl
      rw [h1, h2, h3]
      norm_num)).1

/-! ## Association-list lookup facts -/

theorem lookup_map_replace_self {β : Type} (k : String) (v : β) :
    ∀ l : List (String × β), l.any (fun p => p.1 == k) = true →
      List.lookup k (l.map (fun p => if p.1 == k then (k, v) else p)) = some v := by
  intro l
  induction l with
  | nil => intro h; simp at h
  | cons p rest ih =>
    obtain ⟨pk, pv⟩ := p
    intro h
    cases hp : (pk == k) with
    | true =>
      rw [List.map_cons, if_pos hp]
      simp [List.lookup]
    | false =>
      have hk : (k == pk) = false := by
        rw [beq_eq_false_iff_ne]
        intro hkk
        rw [hkk, beq_self_eq_true] at hp
        exact Bool.noConfusion hp
      rw [List.map_cons, if_neg (by simp [hp])]
      simp only [List.lookup, hk]
      apply ih
      simpa [hp] using h

theorem lookup_append_single {β : Type} (k : String) (v : β) :
    ∀ l : List (String × β), ¬ (l.any (fun p => p.1 == k) = true) →
      List.lookup k (l ++ [(k, v)]) = some v := by
  intro l
  induction l with
  | nil => intro h; simp [List.lookup]
  | cons p rest ih =>
    obtain ⟨pk, pv⟩ := p
    intro h
    simp only [List.any_cons, Bool.or_eq_true, not_or] at h
    have hk : (k == pk) = false := by
      rw [beq_eq_false_iff_ne]
      intro hkk
      exact h.1 (by rw [hkk, beq_self_eq_true])
    simp only [List.cons_append, List.lookup, hk]
    exact ih h.2

theorem lookup_ainsert_self {β : Type} (l : List (String × β)) (k : String) (v : β) :
    List.lookup k (ainsert l k v) = some v := by
  unfold ainsert
  split_ifs with h
  · exact lookup_map_replace_self k v l h
  · exact lookup_append_single k v l h

theorem lookup_map_replace_ne {β : Type} (k k' : String) (v : β) (h : k ≠ k') :
    ∀ l : List (String × β),
      List.lookup k (l.map (fun p => if p.1 == k' then (k', v) else p)) = List.lookup k l := by
  intro l
  induction l with
  | nil => rfl
  | cons p rest ih =>
    obtain ⟨pk, pv⟩ := p
    cases hp : (pk == k') with
    | true =>
      have hk1 : (k == k') = false := beq_eq_false_iff_ne.mpr h
      have hk2 : (k == pk) = false := by
        rw [beq_eq_false_iff_ne]
        rw [beq_iff_eq] at hp
        intro hkk
        exact h (hkk.trans hp)
      rw [List.map_cons, if_pos hp]
      simp only [List.lookup, hk1, hk2]
      exact ih
    | false =>
      rw [List.map_cons, if_neg (by simp [hp])]
      simp only [List.lookup]
      cases hkp : (k == pk) with
      | true => rfl
      | false => exact ih

theorem lookup_append_single_ne {β : Type} (k k' : String) (v : β) (h : k ≠ k') :
    ∀ l : List (String × β), List.lookup k (l ++ [(k', v)]) = List.lookup k l := by
  intro l
  induction l with
  | nil => simp [List.lookup, beq_eq_false_iff_ne.mpr h]
  | cons p rest ih =>
    obtain ⟨pk, pv⟩ := p
    simp only [List.cons_append, List.lookup]
    cases hkp : (k == pk) with
    | true => rfl
    | false =>
      simp only []
      exact ih

theorem lookup_ainsert_ne {β : Type} (l : List (String × β)) (k k' : String) (v : β)
    (h : k ≠ k') : List.lookup k (ainsert l k' v) = List.lookup k l := by
  unfold ainsert
  split_ifs with ha
  · exact lookup_map_replace_ne k k' v h l
  · exact lookup_append_single_ne k k' v h l

/-! ## Alias persistence (C7, C9) -/

/-- Alias bindings with nonempty canonical ids are never removed or
overwritten. -/
def AliasKept (s t : Scene) : Prop :=
  ∀ k v, v ≠ "" → List.lookup k s.id_aliases = some v → List.lookup k t.id_aliases = some v

theorem aliasKept_refl (s : Scene) : AliasKept s s := fun _ _ _ hk => hk

theorem aliasKept_trans {a b c : Scene} (h1 : AliasKept a b) (h2 : AliasKept b c) :
    AliasKept a c := fun k v hv hk => h2 k v hv (h1 k v hv hk)

theorem cid_alias_kept (s : Scene) (ns r : String) : AliasKept s ((canonical_id s ns r).2) := by
  intro k v hv hk
  unfold canonical_id mint
  dsimp only
  split_ifs with h1 h2 h3
  · exact hk
  · exact hk
  · by_cases hkk : k = ns ++ ":" ++ pyStrip r
    · exfalso
      rw [not_not] at h3
      rw [hkk] at hk
      rw [hk] at h3
      exact hv h3
    · rw [lookup_ainsert_ne _ _ _ _ hkk]
      exact hk
  · exact hk

theorem cid2_alias_kept (s : Scene) (n1 r1 n2 r2 : String) :
    AliasKept s ((canonical_id ((canonical_id s n1 r1).2) n2 r2).2) :=
  aliasKept_trans (cid_alias_kept s n1 r1) (cid_alias_kept _ n2 r2)

theorem opCreateEntity_alias (s : Scene) (op : Op) : AliasKept s ((opCreateEntity s op).1) := by
  unfold opCreateEntity
  dsimp only
  split_ifs <;> exact cid_alias_kept s ENTITY_NS op.entity_id

theorem opUpdateEntity_alias (s : Scene) (op : Op) : AliasKept s ((opUpdateEntity s op).1) := by
  unfold opUpdateEntity
  dsimp only
  split <;> exact cid_alias_kept s ENTITY_NS op.entity_id

theorem opDestroyEntity_alias (s : Scene) (op : Op) : AliasKept s ((opDestroyEntity s op).1) :=
  cid_alias_kept s ENTITY_NS op.entity_id

theorem opCreateMaterial_alias (s : Scene) (op : Op) :
    AliasKept s ((opCreateMaterial s op).1) := by
  unfold opCreateMaterial
  dsimp only
  split_ifs <;> exact cid_alias_kept s MATERIAL_NS op.material_id

theorem opUpdateMaterial_alias (s : Scene) (op : Op) :
    AliasKept s ((opUpdateMaterial s op).1) := by
  unfold opUpdateMaterial
  dsimp only
  split
  · exact cid_alias_kept s MATERIAL_NS op.material_id
  · split <;> exact cid_alias_kept s MATERIAL_NS op.material_id

theorem opDestroyMaterial_alias (s : Scene) (op : Op) :
    AliasKept s ((opDestroyMaterial s op).1) :=
  cid_alias_kept s MATERIAL_NS op.material_id

theorem opApplyMaterial_alias (s : Scene) (op : Op) :
    AliasKept s ((opApplyMaterial s op).1) := by
  unfold opApplyMaterial
  dsimp only
  split_ifs <;> exact cid2_alias_kept s ENTITY_NS op.entity_id MATERIAL_NS op.material_id

theorem opCreateBehavior_alias (s : Scene) (op : Op) :
    AliasKept s ((opCreateBehavior s op).1) := by
  unfold opCreateBehavior
  dsimp only
  split_ifs <;> exact cid2_alias_kept s BEHAVIOR_NS op.behavior_id ENTITY_NS op.target_id

theorem opUpdateBehavior_alias (s : Scene) (op : Op) :
    AliasKept s ((opUpdateBehavior s op).1) := by
  unfold opUpdateBehavior
  dsimp only
  split <;> exact cid_alias_kept s BEHAVIOR_NS op.behavior_id

theorem opDestroyBehavior_alias (s : Scene) (op : Op) :
    AliasKept s ((opDestroyBehavior s op).1) :=
  cid_alias_kept s BEHAVIOR_NS op.behavior_id

theorem opTrigger_alias (s : Scene) (op : Op) : AliasKept s ((opTrigger s op).1) := by
  unfold opTrigger
  dsimp only
  split_ifs
  · exact aliasKept_refl s
  · split
    · split <;> exact cid_alias_kept s BEHAVIOR_NS (pyStrip op.target_id)
    · split <;>
        exact cid2_alias_kept s BEHAVIOR_NS (pyStrip op.target_id) ENTITY_NS
          (pyStrip op.target_id)

theorem apply_uniform_update_alias (s : Scene) (op : Op) (p : SafetyPolicy) :
    AliasKept s ((apply_uniform_update s op p).1) := by
  unfold apply_uniform_update
  dsimp only
  split
  · exact cid_alias_kept s MATERIAL_NS op.material_id
  · split_ifs <;> (repeat' split) <;> exact cid_alias_kept s MATERIAL_NS op.material_id

/-- `_apply_single_op` never removes or overwrites a nonempty alias
binding. -/
theorem single_op_alias (s : Scene) (op : Op) (p : SafetyPolicy) :
    AliasKept s ((apply_single_op s op p).1) := by
  unfold apply_single_op
  by_cases h1 : op.op = "createEntity"
  · simp only [if_pos h1]
    exact opCreateEntity_alias s op
  by_cases h2 : op.op = "updateEntity"
  · simp only [if_neg h1, if_pos h2]
    exact opUpdateEntity_alias s op
  by_cases h3 : op.op = "destroyEntity"
  · simp only [if_neg h1, if_neg h2, if_pos h3]
    exact opDestroyEntity_alias s op
  by_cases h4 : op.op = "createMaterial"
  · simp only [if_neg h1, if_neg h2, if_neg h3, if_pos h4]
    exact opCreateMaterial_alias s op
  by_cases h5 : op.op = "updateMaterial"
  · simp only [if_neg h1, if_neg h2, if_neg h3, if_neg h4, if_pos h5]
    exact opUpdateMaterial_alias s op
  by_cases h6 : op.op = "destroyMaterial"
  · simp only [if_neg h1, if_neg h2, if_neg h3, if_neg h4, if_neg h5, if_pos h6]
    exact opDestroyMaterial_alias s op
  by_cases h7 : op.op = "applyMaterial"
  · simp only [if_neg h1, if_neg h2, if_neg h3, if_neg h4, if_neg h5, if_neg h6, if_pos h7]
    exact opApplyMaterial_alias s op
  by_cases h8 : op.op = "setUniform"
  · simp only [if_neg h1, if_neg h2, if_neg h3, if_neg h4, if_neg h5, if_neg h6, if_neg h7, if_pos h8]
    exact apply_uniform_update_alias s op p
  by_cases h9 : op.op = "createBehavior"
  · simp only [if_neg h1, if_neg h2, if_neg h3, if_neg h4, if_neg h5, if_neg h6, if_neg h7, if_neg h8, if_pos h9]
    exact opCreateBehavior_alias s op
  by_cases h10 : op.op = "updateBehavior"
  · simp only [if_neg h1, if_neg h2, if_neg h3, if_neg h4, if_neg h5, if_neg h6, if_neg h7, if_neg h8, if_neg h9, if_pos h10]
    exact opUpdateBehavior_alias s op
  by_cases h11 : op.op = "destroyBehavior"
  · simp only [if_neg h1, if_neg h2, if_neg h3, if_neg h4, if_neg h5, if_neg h6, if_neg h7, if_neg h8, if_neg h9, if_neg h10, if_pos h11]
    exact opDestroyBehavior_alias s op
  by_cases h12 : op.op = "trigger"
  · simp only [if_neg h1, if_neg h2, if_neg h3, if_neg h4, if_neg h5, if_neg h6, if_neg h7, if_neg h8, if_neg h9, if_neg h10, if_neg h11, if_pos h12]
    exact opTrigger_alias s op
  simp only [if_neg h1, if_neg h2, if_neg h3, if_neg h4, if_neg h5, if_neg h6, if_neg h7, if_neg h8, if_neg h9, if_neg h10, if_neg h11, if_neg h12]
  exact aliasKept_refl s

theorem applyLoop_alias_kept (p : SafetyPolicy) (ops : List Op) (st : LoopState) :
    AliasKept st.scene ((applyLoop p ops st).scene) := by
  induction ops generalizing st with
  | nil => exact aliasKept_refl _
  | cons op rest ih =>
    unfold applyLoop
    dsimp only
    split_ifs with h1 h2
    · exact ih st
    · exact ih { st with warns := st.warns ++ ["op_duplicate_ignored:" ++ pyStrip (op.op_id.getD "")] }
    · split
      · exact single_op_alias st.scene op p
      · exact aliasKept_trans (single_op_alias st.scene op p) (ih { st with scene := (apply_single_op st.scene op p).1, seen := st.seen ++ [pyStrip (op.op_id.getD "")], applied := st.applied ++ [op] })

/-- No `apply_ops` call (raising or not) removes or overwrites a
nonempty alias binding. -/
theorem apply_ops_alias_kept (s : Scene) (ops : List Op) (p : SafetyPolicy) (er : Bool) :
    AliasKept s ((apply_ops s ops p er).1) := by
  unfold apply_ops
  dsimp only
  by_cases h1 : (ops.length : Int) > p.max_patch_ops_per_turn
  · rw [if_pos h1]
    exact aliasKept_refl s
  rw [if_neg h1]
  by_cases h2 : (looks_like_rebuild s (normalize_ops ops) && !er) = true
  · rw [if_pos h2]
    exact aliasKept_refl s
  rw [if_neg h2]
  have hloop := applyLoop_alias_kept p (normalize_ops ops)
    ⟨s, pySet s.applied_op_ids, [], [], none⟩
  rcases herr : (applyLoop p (normalize_ops ops)
      ⟨s, pySet s.applied_op_ids, [], [], none⟩).err with - | e
  · simp only [herr]
    rcases hcaps : enforce_caps (applyLoop p (normalize_ops ops)
        ⟨s, pySet s.applied_op_ids, [], [], none⟩).scene p with - | e2
    · simp only [hcaps]
      exact hloop
    · simp only [hcaps]
      exact hloop
  · simp only [herr]
    exact hloop

/-- A sequence of turns: each entry is an op batch with its policy and
rebuild flag, applied through `apply_ops` (keeping the returned scene
whether or not the call raised). -/
def applyBatches (s : Scene) : List (List Op × SafetyPolicy × Bool) → Scene
  | [] => s
  | b :: rest => applyBatches ((apply_ops s b.1 b.2.1 b.2.2).1) rest

theorem applyBatches_alias_kept (s : Scene) (bs : List (List Op × SafetyPolicy × Bool)) :
    AliasKept s (applyBatches s bs) := by
  induction bs generalizing s with
  | nil => exact aliasKept_refl s
  | cons b rest ih =>
    exact aliasKept_trans (apply_ops_alias_kept s b.1 b.2.1 b.2.2) (ih _)

/-- A minted id always contains the `:` separator, so it is nonempty. -/
theorem mint_ne_empty (s : Scene) (ns seed : String) : (mint s ns seed).1 ≠ "" := by
  unfold mint
  dsimp only
  intro h
  have hlen := congrArg String.length h
  simp only [String.length_append] at hlen
  rw [show (":" : String).length = 1 from rfl, show ("#" : String).length = 1 from rfl] at hlen
  simp at hlen

theorem cid_fst_startsWith (t : Scene) (ns raw : String)
    (h : pyStartsWith (pyStrip raw) (nsPref ns ++ ":") = true) :
    (canonical_id t ns raw).1 = pyStrip raw := by
  unfold canonical_id
  dsimp only
  rw [if_pos h]

theorem cid_fst_alias_found (t : Scene) (ns raw v : String)
    (hsw : ¬ pyStartsWith (pyStrip raw) (nsPref ns ++ ":") = true)
    (hne : pyStrip raw ≠ "")
    (hv : v ≠ "")
    (hl : List.lookup (ns ++ ":" ++ pyStrip raw) t.id_aliases = some v) :
    (canonical_id t ns raw).1 = v := by
  unfold canonical_id
  dsimp only
  rw [if_neg hsw, if_pos hne, hl]
  dsimp only [Option.getD]
  rw [if_pos hv]

/-- After a first resolution of a nonempty, non-canonical raw id, the
alias table maps its key to the returned (nonempty) canonical id. -/
theorem cid_records (s : Scene) (ns raw : String)
    (hsw : ¬ pyStartsWith (pyStrip raw) (nsPref ns ++ ":") = true)
    (hne : pyStrip raw ≠ "") :
    List.lookup (ns ++ ":" ++ pyStrip raw) ((canonical_id s ns raw).2).id_aliases
        = some ((canonical_id s ns raw).1)
      ∧ (canonical_id s ns raw).1 ≠ "" := by
  unfold canonical_id
  dsimp only
  rw [if_neg hsw, if_pos hne]
  by_cases hc0 : ((List.lookup (ns ++ ":" ++ pyStrip raw) s.id_aliases).getD "") ≠ ""
  · rw [if_pos hc0]
    dsimp only
    constructor
    · rcases hl : List.lookup (ns ++ ":" ++ pyStrip raw) s.id_aliases with - | v
      · rw [hl] at hc0
        simp at hc0
      · simp
    · exact hc0
  · rw [if_neg hc0]
    dsimp only
    exact ⟨lookup_ainsert_self _ _ _, mint_ne_empty s ns (pyStrip raw)⟩

/-! ## C7 -/

/-- Counterexample to C7 as stated: with an empty raw id, two successive
calls on the same fresh scene mint two distinct canonical ids. -/
theorem canonical_id_empty_not_stable :
    (canonical_id (new_scene_state "c7") ENTITY_NS "").1 = "entity:entity#001" ∧
      (canonical_id ((canonical_id (new_scene_state "c7") ENTITY_NS "").2) ENTITY_NS "").1
        = "entity:entity#002" ∧
      ("entity:entity#001" : String) ≠ "entity:entity#002" :=
  ⟨rfl, rfl, by decide⟩

/-- C7 (amended): for any raw id whose stripped form is nonempty, a
second `canonical_id` call with the same namespace returns the same
canonical id as the first, across any number of intervening `apply_ops`
batches (raising or not); an empty or all-whitespace raw id instead
mints a fresh id on every call. -/
theorem canonical_id_stable (s : Scene) (ns raw : String)
    (bs : List (List Op × SafetyPolicy × Bool)) (h : pyStrip raw ≠ "") :
    (canonical_id (applyBatches ((canonical_id s ns raw).2) bs) ns raw).1
      = (canonical_id s ns raw).1 := by
  by_cases hsw : pyStartsWith (pyStrip raw) (nsPref ns ++ ":") = true
  · rw [cid_fst_startsWith _ _ _ hsw, cid_fst_startsWith _ _ _ hsw]
  · obtain ⟨hrec, hne2⟩ := cid_records s ns raw hsw h
    have hkeep := applyBatches_alias_kept ((canonical_id s ns raw).2) bs
    exact cid_fst_alias_found _ ns raw _ hsw h hne2 (hkeep _ _ hne2 hrec)

/-- Witness for the amended C7: "the fish" resolves to the same id before
and after an intervening (empty) turn. -/
theorem canonical_id_stable_witness :
    (canonical_id (applyBatches ((canonical_id (new_scene_state "c7w") ENTITY_NS "fish").2)
        [([], policyW, false)]) ENTITY_NS "fish").1
      = (canonical_id (new_scene_state "c7w") ENTITY_NS "fish").1 :=
  canonical_id_stable (new_scene_state "c7w") ENTITY_NS "fish" [([], policyW, false)]
    (by decide)

/-! ## C9 -/

/-- The conditions under which `canonical_id` mints: a nonempty stripped
raw id, not already in canonical form, with no (nonempty) alias yet. -/
def Mintable (s : Scene) (ns raw : String) : Prop :=
  pyStrip raw ≠ "" ∧ ¬ pyStartsWith (pyStrip raw) (nsPref ns ++ ":") = true ∧
    (List.lookup (ns ++ ":" ++ pyStrip raw) s.id_aliases).getD "" = ""

theorem cid_mints (s : Scene) (ns raw : String) (h : Mintable s ns raw) :
    canonical_id s ns raw = ((mint s ns (pyStrip raw)).1,
      { s with
          counters := ainsert s.counters ns (((List.lookup ns s.counters).getD 1) + 1)
          id_aliases := ainsert s.id_aliases (ns ++ ":" ++ pyStrip raw)
            (mint s ns (pyStrip raw)).1 }) := by
  obtain ⟨h1, h2, h3⟩ := h
  unfold canonical_id
  dsimp only
  rw [if_neg h2, if_pos h1]
  rw [if_neg (show ¬ (((List.lookup (ns ++ ":" ++ pyStrip raw) s.id_aliases).getD "") ≠ "") by
    rw [h3]
    simp)]
  rfl

theorem cid_mint_lookup (s : Scene) (ns raw : String) (h : Mintable s ns raw) :
    List.lookup (ns ++ ":" ++ pyStrip raw) ((canonical_id s ns raw).2).id_aliases
        = some ((canonical_id s ns raw).1)
      ∧ (canonical_id s ns raw).1 ≠ ""
      ∧ List.lookup ns ((canonical_id s ns raw).2).counters
        = some (((List.lookup ns s.counters).getD 1) + 1) := by
  rw [cid_mints s ns raw h]
  dsimp only
  exact ⟨lookup_ainsert_self .., mint_ne_empty s ns (pyStrip raw), lookup_ainsert_self ..⟩

/-- `canonical_id` in one namespace leaves the counters of the other
namespaces alone. -/
theorem cid_counter_other (s : Scene) (ns' r k : String) (h : k ≠ ns') :
    List.lookup k ((canonical_id s ns' r).2).counters = List.lookup k s.counters := by
  unfold canonical_id mint
  dsimp only
  split_ifs <;> first | rfl | (exact lookup_ainsert_ne _ _ _ _ h)

theorem alias_ne_of (s t : Scene) (key v : String) (hv : v ≠ "")
    (hs : (List.lookup key s.id_aliases).getD "" = "")
    (ht : List.lookup key t.id_aliases = some v) : t.id_aliases ≠ s.id_aliases := by
  intro heq
  rw [heq] at ht
  rw [ht] at hs
  simp at hs
  exact hv hs

theorem counters_ne_of (s t : Scene) (k : String)
    (ht : List.lookup k t.counters = some (((List.lookup k s.counters).getD 1) + 1)) :
    t.counters ≠ s.counters := by
  intro heq
  rw [heq] at ht
  rcases hl : List.lookup k s.counters with - | n
  · rw [hl] at ht
    exact Option.noConfusion ht
  · rw [hl] at ht
    simp at ht

theorem cid_mint_changes (s : Scene) (ns raw : String) (h : Mintable s ns raw) :
    ((canonical_id s ns raw).2).id_aliases ≠ s.id_aliases
      ∧ ((canonical_id s ns raw).2).counters ≠ s.counters :=
  ⟨alias_ne_of s _ _ _ (cid_mint_lookup s ns raw h).2.1 h.2.2 (cid_mint_lookup s ns raw h).1,
   counters_ne_of s _ ns (cid_mint_lookup s ns raw h).2.2⟩

theorem cid2_mint_changes (s : Scene) (ns1 raw1 ns2 raw2 : String)
    (h : Mintable s ns1 raw1) (hns : ns1 ≠ ns2) :
    ((canonical_id ((canonical_id s ns1 raw1).2) ns2 raw2).2).id_aliases ≠ s.id_aliases
      ∧ ((canonical_id ((canonical_id s ns1 raw1).2) ns2 raw2).2).counters ≠ s.counters := by
  constructor
  · exact alias_ne_of s _ _ _ (cid_mint_lookup s ns1 raw1 h).2.1 h.2.2
      (cid_alias_kept _ ns2 raw2 _ _ (cid_mint_lookup s ns1 raw1 h).2.1
        (cid_mint_lookup s ns1 raw1 h).1)
  · apply counters_ne_of s _ ns1
    rw [cid_counter_other _ ns2 raw2 ns1 hns]
    exact (cid_mint_lookup s ns1 raw1 h).2.2

/-- C9: an op rejected with an unknown-reference error still mutates the
scene id allocator: for each of updateEntity, updateMaterial,
updateBehavior, applyMaterial, setUniform and trigger, when the
referenced raw id is not yet aliased (and not in canonical form) and the
freshly minted canonical id names no existing record, the op raises its
unknown-reference error and leaves `id_aliases` and `counters` changed
from their pre-op values. -/
theorem unknown_ref_error_still_mutates_aliases :
    (∀ (s : Scene) (op : Op) (p : SafetyPolicy),
      op.op = "updateEntity" → Mintable s ENTITY_NS op.entity_id →
      List.lookup (canonical_id s ENTITY_NS op.entity_id).1
          ((canonical_id s ENTITY_NS op.entity_id).2).entities = none →
      (apply_single_op s op p).2 = some "unknown_entity_id"
        ∧ ((apply_single_op s op p).1).id_aliases ≠ s.id_aliases
        ∧ ((apply_single_op s op p).1).counters ≠ s.counters) ∧
    (∀ (s : Scene) (op : Op) (p : SafetyPolicy),
      op.op = "updateMaterial" → Mintable s MATERIAL_NS op.material_id →
      List.lookup (canonical_id s MATERIAL_NS op.material_id).1
          ((canonical_id s MATERIAL_NS op.material_id).2).materials = none →
      (apply_single_op s op p).2 = some "unknown_material_id"
        ∧ ((apply_single_op s op p).1).id_aliases ≠ s.id_aliases
        ∧ ((apply_single_op s op p).1).counters ≠ s.counters) ∧
    (∀ (s : Scene) (op : Op) (p : SafetyPolicy),
      op.op = "updateBehavior" → Mintable s BEHAVIOR_NS op.behavior_id →
      List.lookup (canonical_id s BEHAVIOR_NS op.behavior_id).1
          ((canonical_id s BEHAVIOR_NS op.behavior_id).2).behaviors = none →
      (apply_single_op s op p).2 = some "unknown_behavior_id"
        ∧ ((apply_single_op s op p).1).id_aliases ≠ s.id_aliases
        ∧ ((apply_single_op s op p).1).counters ≠ s.counters) ∧
    (∀ (s : Scene) (op : Op) (p : SafetyPolicy),
      op.op = "applyMaterial" → Mintable s ENTITY_NS op.entity_id →
      List.lookup (canonical_id s ENTITY_NS op.entity_id).1
          ((canonical_id ((canonical_id s ENTITY_NS op.entity_id).2)
            MATERIAL_NS op.material_id).2).entities = none →
      (apply_single_op s op p).2 = some "unknown_entity_id"
        ∧ ((apply_single_op s op p).1).id_aliases ≠ s.id_aliases
        ∧ ((apply_single_op s op p).1).counters ≠ s.counters) ∧
    (∀ (s : Scene) (op : Op) (p : SafetyPolicy),
      op.op = "setUniform" → Mintable s MATERIAL_NS op.material_id →
      List.lookup (canonical_id s MATERIAL_NS op.material_id).1
          ((canonical_id s MATERIAL_NS op.material_id).2).materials = none →
      (apply_single_op s op p).2 = some "unknown_material_id"
        ∧ ((apply_single_op s op p).1).id_aliases ≠ s.id_aliases
        ∧ ((apply_single_op s op p).1).counters ≠ s.counters) ∧
    (∀ (s : Scene) (op : Op) (p : SafetyPolicy),
      op.op = "trigger" → pyStrip op.target_id ≠ "" → pyStrip op.action ≠ "" →
      Mintable s BEHAVIOR_NS (pyStrip op.target_id) →
      List.lookup (canonical_id s BEHAVIOR_NS (pyStrip op.target_id)).1
          ((canonical_id s BEHAVIOR_NS (pyStrip op.target_id)).2).behaviors = none →
      List.lookup (canonical_id ((canonical_id s BEHAVIOR_NS (pyStrip op.target_id)).2)
            ENTITY_NS (pyStrip op.target_id)).1
          ((canonical_id ((canonical_id s BEHAVIOR_NS (pyStrip op.target_id)).2)
            ENTITY_NS (pyStrip op.target_id)).2).entities = none →
      (apply_single_op s op p).2 = some "unknown_trigger_target"
        ∧ ((apply_single_op s op p).1).id_aliases ≠ s.id_aliases
        ∧ ((apply_single_op s op p).1).counters ≠ s.counters) := by
  refine ⟨?_, ?_, ?_, ?_, ?_, ?_⟩
  · intro s op p hop hm hmiss
    rw [dispatchUpdateEntity s op p hop]
    unfold opUpdateEntity
    dsimp only
    rw [hmiss]
    exact ⟨rfl, (cid_mint_changes s ENTITY_NS op.entity_id hm).1,
      (cid_mint_changes s ENTITY_NS op.entity_id hm).2⟩
  · intro s op p hop hm hmiss
    rw [dispatchUpdateMaterial s op p hop]
    unfold opUpdateMaterial
    dsimp only
    rw [hmiss]
    exact ⟨rfl, (cid_mint_changes s MATERIAL_NS op.material_id hm).1,
      (cid_mint_changes s MATERIAL_NS op.material_id hm).2⟩
  · intro s op p hop hm hmiss
    rw [dispatchUpdateBehavior s op p hop]
    unfold opUpdateBehavior
    dsimp only
    rw [hmiss]
    exact ⟨rfl, (cid_mint_changes s BEHAVIOR_NS op.behavior_id hm).1,
      (cid_mint_changes s BEHAVIOR_NS op.behavior_id hm).2⟩
  · intro s op p hop hm hmiss
    rw [dispatchApplyMaterial s op p hop]
    unfold opApplyMaterial
    dsimp only
    rw [if_pos (by rw [hmiss]; rfl)]
    exact ⟨rfl,
      (cid2_mint_changes s ENTITY_NS op.entity_id MATERIAL_NS op.material_id hm
        (by decide)).1,
      (cid2_mint_changes s ENTITY_NS op.entity_id MATERIAL_NS op.material_id hm
        (by decide)).2⟩
  · intro s op p hop hm hmiss
    rw [dispatchSetUniform s op p hop]
    unfold apply_uniform_update
    dsimp only
    rw [hmiss]
    exact ⟨rfl, (cid_mint_changes s MATERIAL_NS op.material_id hm).1,
      (cid_mint_changes s MATERIAL_NS op.material_id hm).2⟩
  · intro s op p hop hta hac hm hb he
    rw [dispatchTrigger s op p hop]
    unfold opTrigger
    dsimp only
    rw [if_neg (not_or.mpr ⟨hta, hac⟩)]
    rw [hb]
    dsimp only
    rw [he]
    exact ⟨rfl,
      (cid2_mint_changes s BEHAVIOR_NS (pyStrip op.target_id) ENTITY_NS
        (pyStrip op.target_id) hm (by decide)).1,
      (cid2_mint_changes s BEHAVIOR_NS (pyStrip op.target_id) ENTITY_NS
        (pyStrip op.target_id) hm (by decide)).2⟩

def c9op : Op := { op := "updateEntity", entity_id := "ghost" }

/-- Witness for C9: updating the never-seen "ghost" on a fresh scene
raises `unknown_entity_id` yet leaves a new alias and a bumped counter. -/
theorem unknown_ref_error_still_mutates_aliases_witness :
    (apply_single_op (new_scene_state "c9") c9op policyW).2 = some "unknown_entity_id"
      ∧ ((apply_single_op (new_scene_state "c9") c9op policyW).1).id_aliases
        ≠ (new_scene_state "c9").id_aliases
      ∧ ((apply_single_op (new_scene_state "c9") c9op policyW).1).counters
        ≠ (new_scene_state "c9").counters :=
  unknown_ref_error_still_mutates_aliases.1 (new_scene_state "c9") c9op policyW rfl
    ⟨by decide, by decide, rfl⟩ rfl

/-! ## C8 -/

/-- Scene for the C8 counterexample: the transition for event "go" has an
empty `to` field. -/
def c8scene : Scene :=
  { new_scene_state "c8" with
    behaviors := [("beh:b#001",
      [ ("id", .str "beh:b#001")
      , ("target_id", .str "entity:f#001")
      , ("definition", .obj [("states", .obj [("idle", .obj [("transitions",
          .list [.obj [("event", .str "go"), ("to", .str "")]])])])])
      , ("state", .str "idle") ])] }

def c8op : Op :=
  { op := "trigger", op_id := some "t", target_id := "beh:b#001", action := "go" }

/-- Counterexample to C8 as stated: the current state's transition list
contains an entry whose event equals the action ("go") with `to := ""`,
yet the state is left at "idle" rather than set to that entry's `to`
value (the engine treats a falsy stripped `to` as no transition). -/
theorem trigger_matching_empty_to_keeps_state :
    (apply_single_op c8scene c8op policyW).2 = none
      ∧ List.lookup "state"
          ((List.lookup "beh:b#001" ((apply_single_op c8scene c8op policyW).1).behaviors).getD [])
        = some (.str "idle")
      ∧ ("idle" : String) ≠ "" :=
  ⟨rfl, rfl, by decide⟩

/-- Whether a transition row reacts to `act`: it must be a dict whose
stripped `event` equals the action. -/
def rowMatches (act : String) (row : JVal) : Bool :=
  match row with
  | .obj r => pyStrip (pyStr ((List.lookup "event" r).getD (.str ""))) == act
  | _ => false

/-- The stripped `to` field of a transition row. -/
def rowTo (row : JVal) : String :=
  match row with
  | .obj r => pyStrip (pyStr ((List.lookup "to" r).getD (.str "")))
  | _ => ""

/-- The transition scan is: find the first matching row; an empty
stripped `to` on that row yields no transition. -/
theorem findTrans_eq_find (rows : List JVal) (act : String) :
    findTrans rows act =
      match List.find? (rowMatches act) rows with
      | some row => if rowTo row = "" then none else some (rowTo row)
      | none => none := by
  induction rows with
  | nil => rfl
  | cons row rest ih =>
    match row with
    | .obj r =>
      unfold findTrans
      dsimp only
      by_cases hm : pyStrip (pyStr ((List.lookup "event" r).getD (.str ""))) = act
      · rw [if_pos hm]
        rw [List.find?_cons_of_pos _ (by simp [rowMatches, hm])]
        rfl
      · rw [if_neg hm]
        rw [List.find?_cons_of_neg _ (by simp [rowMatches, hm])]
        exact ih
    | .null =>
      unfold findTrans
      rw [List.find?_cons_of_neg _ (by simp [rowMatches])]
      exact ih
    | .bool b =>
      unfold findTrans
      rw [List.find?_cons_of_neg _ (by simp [rowMatches])]
      exact ih
    | .int n =>
      unfold findTrans
      rw [List.find?_cons_of_neg _ (by simp [rowMatches])]
      exact ih
    | .rat q =>
      unfold findTrans
      rw [List.find?_cons_of_neg _ (by simp [rowMatches])]
      exact ih
    | .str s2 =>
      unfold findTrans
      rw [List.find?_cons_of_neg _ (by simp [rowMatches])]
      exact ih
    | .list xs =>
      unfold findTrans
      rw [List.find?_cons_of_neg _ (by simp [rowMatches])]
      exact ih

/-- With a well-shaped behavior record, `_resolve_transition` is exactly
the row scan over the current state's transition list. -/
theorem resolve_via_rows (s2 : Scene) (bid act cur : String) (beh' defn smap stRec : Rec)
    (rows : List JVal)
    (h_beh : List.lookup bid s2.behaviors = some beh')
    (h_def : List.lookup "definition" beh' = some (.obj defn))
    (h_state : List.lookup "state" beh' = some (.str cur))
    (h_cur : cur ≠ "")
    (h_states : List.lookup "states" defn = some (.obj smap))
    (h_st : List.lookup cur smap = some (.obj stRec))
    (h_rows : List.lookup "transitions" stRec = some (.list rows)) :
    resolve_transition s2 bid act = findTrans rows act := by
  have hstRec : stRec ≠ [] := by
    intro h
    rw [h] at h_rows
    exact Option.noConfusion h_rows
  unfold resolve_transition
  dsimp only
  rw [h_beh]
  simp only [Option.getD_some]
  rw [h_def]
  simp only [Option.getD_some]
  dsimp only [asObj]
  rw [h_states, h_state]
  simp only [Option.getD_some]
  rw [show pyOr (.str cur) (pyOr ((List.lookup "state" defn).getD JVal.null) (.str "idle"))
      = .str cur by
    unfold pyOr pyTruthy
    rw [if_pos (by simpa using h_cur)]]
  dsimp only [pyStr]
  rw [h_st]
  simp only [Option.getD_some]
  rw [show (if pyTruthy (.obj stRec) = true then JVal.obj stRec else .obj []) = .obj stRec by
    rw [if_pos (by simpa [pyTruthy] using hstRec)]]
  dsimp only [asObj]
  rw [h_rows]
  simp only [Option.getD_some]
  rcases rows with - | ⟨row, rest⟩
  · rw [show pyTruthy (.list []) = false from rfl]
    rfl
  · rw [show (if pyTruthy (.list (row :: rest)) = true
        then JVal.list (row :: rest) else .list []) = .list (row :: rest) by
      rw [if_pos (by simp [pyTruthy])]]

/-- C8 (amended): a `trigger` on an existing behavior never raises,
stamps `last_trigger`, appends to the bounded trigger log, and sets the
state to the stripped `to` value of the *first* transition row of the
current state whose stripped `event` equals the action — provided that
value is nonempty; with no matching row, or a matching row whose `to`
strips to the empty string, the state field is left unchanged. -/
theorem trigger_transition_semantics
    (s : Scene) (op : Op) (p : SafetyPolicy) (bid cur : String) (s1 : Scene)
    (beh defn smap stRec : Rec) (rows : List JVal)
    (h_op : op.op = "trigger")
    (h_t : pyStrip op.target_id ≠ "")
    (h_a : pyStrip op.action ≠ "")
    (h_cid : canonical_id s BEHAVIOR_NS (pyStrip op.target_id) = (bid, s1))
    (h_beh : List.lookup bid s1.behaviors = some beh)
    (h_def : List.lookup "definition" beh = some (.obj defn))
    (h_state : List.lookup "state" beh = some (.str cur))
    (h_cur : cur ≠ "")
    (h_states : List.lookup "states" defn = some (.obj smap))
    (h_st : List.lookup cur smap = some (.obj stRec))
    (h_rows : List.lookup "transitions" stRec = some (.list rows)) :
    ∃ s3, apply_single_op s op p = (s3, none)
      ∧ List.lookup bid s3.behaviors = some
          (match List.find? (rowMatches (pyStrip op.action)) rows with
           | some row =>
             if rowTo row = "" then ainsert beh "last_trigger" (.str (pyStrip op.action))
             else ainsert (ainsert beh "last_trigger" (.str (pyStrip op.action)))
               "state" (.str (rowTo row))
           | none => ainsert beh "last_trigger" (.str (pyStrip op.action)))
      ∧ s3.trigger_log = capLog (s1.trigger_log
          ++ [triggerEntry (pyStrip op.target_id) (pyStrip op.action) op.at_ms]) := by
  rw [dispatchTrigger s op p h_op]
  unfold opTrigger
  dsimp only
  rw [if_neg (not_or.mpr ⟨h_t, h_a⟩), h_cid]
  dsimp only
  rw [h_beh]
  dsimp only
  have h_beh2 : List.lookup bid ({ s1 with behaviors := ainsert s1.behaviors bid (ainsert beh "last_trigger" (.str (pyStrip op.action))) } : Scene).behaviors = some (ainsert beh "last_trigger" (.str (pyStrip op.action))) :=
    lookup_ainsert_self ..
  have hres := resolve_via_rows
    { s1 with behaviors := ainsert s1.behaviors bid (ainsert beh "last_trigger" (.str (pyStrip op.action))) }
    bid (pyStrip op.action) cur
    (ainsert beh "last_trigger" (.str (pyStrip op.action))) defn smap stRec rows
    h_beh2
    (by rw [lookup_ainsert_ne _ _ _ _ (by decide)]; exact h_def)
    (by rw [lookup_ainsert_ne _ _ _ _ (by decide)]; exact h_state)
    h_cur h_states h_st h_rows
  rw [hres, findTrans_eq_find rows (pyStrip op.action)]
  rcases hf : List.find? (rowMatches (pyStrip op.action)) rows with - | row
  · refine ⟨_, rfl, ?_, rfl⟩
    dsimp only
    exact h_beh2
  · dsimp only
    by_cases h0 : rowTo row = ""
    · rw [if_pos h0]
      refine ⟨_, rfl, ?_, rfl⟩
      dsimp only
      rw [if_pos h0]
      exact h_beh2
    · rw [if_neg h0]
      refine ⟨_, rfl, ?_, rfl⟩
      dsimp only
      rw [if_neg h0, h_beh2]
      simp only [Option.getD_some]
      exact lookup_ainsert_self ..

def c8wscene : Scene :=
  { new_scene_state "c8w" with
    behaviors := [("beh:b#001",
      [ ("id", .str "beh:b#001")
      , ("definition", .obj [("states", .obj [("idle", .obj [("transitions",
          .list [.obj [("event", .str "bloop"), ("to", .str "swim")]])])])])
      , ("state", .str "idle") ])] }

def c8wop : Op :=
  { op := "trigger", op_id := some "t", target_id := "beh:b#001", action := "bloop" }

theorem trigger_transition_semantics_witness :
    ∃ s3, apply_single_op c8wscene c8wop policyW = (s3, none)
      ∧ List.lookup "beh:b#001" s3.behaviors = some
          (match List.find? (rowMatches (pyStrip c8wop.action))
              [JVal.obj [("event", .str "bloop"), ("to", .str "swim")]] with
           | some row =>
             if rowTo row = "" then ainsert ((List.lookup "beh:b#001" c8wscene.behaviors).getD [])
               "last_trigger" (.str (pyStrip c8wop.action))
             else ainsert (ainsert ((List.lookup "beh:b#001" c8wscene.behaviors).getD [])
               "last_trigger" (.str (pyStrip c8wop.action))) "state" (.str (rowTo row))
           | none => ainsert ((List.lookup "beh:b#001" c8wscene.behaviors).getD [])
               "last_trigger" (.str (pyStrip c8wop.action)))
      ∧ s3.trigger_log = capLog (c8wscene.trigger_log
          ++ [triggerEntry (pyStrip c8wop.target_id) (pyStrip c8wop.action) c8wop.at_ms]) :=
  trigger_transition_semantics c8wscene c8wop policyW "beh:b#001" "idle" c8wscene
    ((List.lookup "beh:b#001" c8wscene.behaviors).getD [])
    [("states", .obj [("idle", .obj [("transitions",
      .list [.obj [("event", .str "bloop"), ("to", .str "swim")]])])])]
    [("idle", .obj [("transitions",
      .list [.obj [("event", .str "bloop"), ("to", .str "swim")]])])]
    [("transitions", .list [.obj [("event", .str "bloop"), ("to", .str "swim")]])]
    [.obj [("event", .str "bloop"), ("to", .str "swim")]]
    rfl (by decide) (by decide) rfl rfl rfl rfl (by decide) rfl rfl rfl

/-! ## C10 -/

/-- Keys not named in the right dictionary are read from the left one. -/
theorem lookup_dictUnion_not_mem (k : String) :
    ∀ (b a : Rec), (∀ p ∈ b, p.1 ≠ k) → List.lookup k (dictUnion a b) = List.lookup k a := by
  intro b
  induction b with
  | nil => intro a h; rfl
  | cons q rest ih =>
    intro a h
    unfold dictUnion
    simp only [List.foldl_cons]
    have step : List.lookup k (List.foldl (fun acc p => ainsert acc p.1 p.2)
        (ainsert a q.1 q.2) rest) = List.lookup k (ainsert a q.1 q.2) :=
      ih (ainsert a q.1 q.2) (fun p hp => h p (List.mem_cons_of_mem q hp))
    rw [step, lookup_ainsert_ne _ _ _ _ (fun hk => h q (List.mem_cons_self q rest) hk.symm)]

/-- Scene for the C10 counterexample: an existing pbr material with a
uniform and an extra field. -/
def c10scene : Scene :=
  { new_scene_state "c10" with
    materials := [("mat:m#001",
      [ ("id", .str "mat:m#001"), ("type", .str "pbr"), ("recipe_id", .str "")
      , ("uniforms", .obj [("glow", .rat 1)]), ("note", .str "keep") ])] }

/-- A `createMaterial` re-using the same id with empty data. -/
def c10op : Op := { op := "createMaterial", material_id := "mat:m#001" }

/-- Counterexample to C10 as stated: re-creating an existing material
with data naming neither `type` nor `uniforms` still resets `type` from
"pbr" to "unlit" and replaces the uniforms map with an empty one, so
fields not named in the new data are not all preserved. -/
theorem create_material_clobbers_unnamed_fields :
    (apply_single_op c10scene c10op policyW).2 = none
      ∧ List.lookup "type"
          ((List.lookup "mat:m#001" ((apply_single_op c10scene c10op policyW).1).materials).getD [])
        = some (.str "unlit")
      ∧ List.lookup "uniforms"
          ((List.lookup "mat:m#001" ((apply_single_op c10scene c10op policyW).1).materials).getD [])
        = some (.obj [])
      ∧ List.lookup "type" ((List.lookup "mat:m#001" c10scene.materials).getD [])
        = some (.str "pbr")
      ∧ c10op.data = [] :=
  ⟨rfl, rfl, rfl, rfl, rfl⟩

/-- C10 (amended): `create*` ops have upsert semantics — an existing
canonical id does not by itself make them fail, and fields of the
existing record survive with these exceptions: `createEntity` overwrites
only `id`, `kind`, `updated_at_ms` and the keys named in `data` (and
still requires a nonempty kind); `createMaterial` additionally always
recomputes `type`, `recipe_id` and replaces `uniforms` wholesale;
`createBehavior` does not merge `data` at all — it rewrites `id`,
`target_id`, `definition`, `state`, `updated_at_ms` (keeping only other
leftover fields) and still requires its target entity to exist. -/
theorem create_upsert_preserves_unnamed_fields :
    (∀ (s : Scene) (op : Op) (p : SafetyPolicy) (cid : String) (s1 : Scene) (ex : Rec),
      op.op = "createEntity" →
      pyLower (pyStrip op.kind) ≠ "" →
      canonical_id s ENTITY_NS op.entity_id = (cid, s1) →
      List.lookup cid s1.entities = some ex →
      (apply_single_op s op p).2 = none
        ∧ ∀ k, (∀ q ∈ op.data, q.1 ≠ k) → k ≠ "id" → k ≠ "kind" → k ≠ "updated_at_ms" →
          List.lookup k ((List.lookup cid ((apply_single_op s op p).1).entities).getD [])
            = List.lookup k ex) ∧
    (∀ (s : Scene) (op : Op) (p : SafetyPolicy) (cid : String) (s1 : Scene) (ex : Rec)
        (ty rid : String),
      op.op = "createMaterial" →
      canonical_id s MATERIAL_NS op.material_id = (cid, s1) →
      List.lookup cid s1.materials = some ex →
      (if pyLower (pyStrip (pyStr ((List.lookup "type" op.data).getD (.str "unlit")))) = ""
        then "unlit"
        else pyLower (pyStrip (pyStr ((List.lookup "type" op.data).getD (.str "unlit"))))) = ty →
      pyStrip (pyStr (pyOr ((List.lookup "recipe_id" op.data).getD .null)
        (pyOr ((List.lookup "shader_id" op.data).getD .null) (.str "")))) = rid →
      ¬ (¬ BUILTIN_MATERIAL_TYPES.contains ty ∧ rid = "") →
      ¬ (rid ≠ "" ∧ (get_recipe rid).isNone) →
      (apply_single_op s op p).2 = none
        ∧ ∀ k, (∀ q ∈ op.data, q.1 ≠ k) → k ≠ "id" → k ≠ "type" → k ≠ "recipe_id" →
          k ≠ "uniforms" → k ≠ "updated_at_ms" →
          List.lookup k ((List.lookup cid ((apply_single_op s op p).1).materials).getD [])
            = List.lookup k ex) ∧
    (∀ (s : Scene) (op : Op) (p : SafetyPolicy) (bid tid : String) (s1 s2 : Scene) (ex : Rec),
      op.op = "createBehavior" →
      canonical_id s BEHAVIOR_NS op.behavior_id = (bid, s1) →
      canonical_id s1 ENTITY_NS op.target_id = (tid, s2) →
      (List.lookup tid s2.entities).isNone = false →
      List.lookup bid s2.behaviors = some ex →
      (apply_single_op s op p).2 = none
        ∧ ∀ k, k ≠ "id" → k ≠ "target_id" → k ≠ "definition" → k ≠ "state" →
          k ≠ "updated_at_ms" →
          List.lookup k ((List.lookup bid ((apply_single_op s op p).1).behaviors).getD [])
            = List.lookup k ex) := by
  refine ⟨?_, ?_, ?_⟩
  · intro s op p cid s1 ex hop hkind hcid hex
    rw [dispatchCreateEntity s op p hop]
    unfold opCreateEntity
    dsimp only
    rw [hcid]
    dsimp only
    rw [if_neg hkind, hex]
    simp only [Option.getD_some]
    refine ⟨by trivial, fun k hdata hid hkind2 hupd => ?_⟩
    try dsimp only
    rw [lookup_ainsert_self, Option.getD_some]
    rw [lookup_ainsert_ne _ _ _ _ hupd, lookup_ainsert_ne _ _ _ _ hkind2,
      lookup_ainsert_ne _ _ _ _ hid]
    exact lookup_dictUnion_not_mem k op.data ex hdata
  · intro s op p cid s1 ex ty rid hop hcid hex hty hrid hok1 hok2
    rw [dispatchCreateMaterial s op p hop]
    unfold opCreateMaterial
    dsimp only
    rw [hcid]
    dsimp only
    rw [hty, hrid]
    rw [if_neg hok1, if_neg hok2, hex]
    simp only [Option.getD_some]
    refine ⟨by trivial, fun k hdata hid hty2 hrid2 huni hupd => ?_⟩
    try dsimp only
    rw [lookup_ainsert_self, Option.getD_some]
    rw [lookup_ainsert_ne _ _ _ _ hupd, lookup_ainsert_ne _ _ _ _ huni,
      lookup_ainsert_ne _ _ _ _ hrid2, lookup_ainsert_ne _ _ _ _ hty2,
      lookup_ainsert_ne _ _ _ _ hid]
    exact lookup_dictUnion_not_mem k op.data ex hdata
  · intro s op p bid tid s1 s2 ex hop hcid1 hcid2 htid hex
    rw [dispatchCreateBehavior s op p hop]
    unfold opCreateBehavior
    dsimp only
    rw [hcid1]
    dsimp only
    rw [hcid2]
    dsimp only
    rw [htid]
    rw [if_neg (by simp), hex]
    simp only [Option.getD_some]
    refine ⟨by trivial, fun k hid htgt hdef hst hupd => ?_⟩
    try dsimp only
    rw [lookup_ainsert_self, Option.getD_some]
    rw [lookup_ainsert_ne _ _ _ _ hupd, lookup_ainsert_ne _ _ _ _ hst,
      lookup_ainsert_ne _ _ _ _ hdef, lookup_ainsert_ne _ _ _ _ htgt,
      lookup_ainsert_ne _ _ _ _ hid]

def c10wscene : Scene :=
  { new_scene_state "c10w" with
    entities := [("entity:fish#001",
      [ ("id", .str "entity:fish#001"), ("kind", .str "fish"), ("color", .str "gold") ])] }

def c10wop : Op :=
  { op := "createEntity", entity_id := "entity:fish#001", kind := "fish",
    data := [("size", .rat 2)] }

/-- Witness for the amended C10: re-creating the fish keeps its `color`
field (not named in the new data). -/
theorem create_upsert_preserves_unnamed_fields_witness :
    (apply_single_op c10wscene c10wop policyW).2 = none
      ∧ ∀ k, (∀ q ∈ c10wop.data, q.1 ≠ k) → k ≠ "id" → k ≠ "kind" → k ≠ "updated_at_ms" →
        List.lookup k
            ((List.lookup "entity:fish#001"
              ((apply_single_op c10wscene c10wop policyW).1).entities).getD [])
          = List.lookup k ((List.lookup "entity:fish#001" c10wscene.entities).getD []) :=
  create_upsert_preserves_unnamed_fields.1 c10wscene c10wop policyW "entity:fish#001"
    c10wscene ((List.lookup "entity:fish#001" c10wscene.entities).getD [])
    rfl (by decide) rfl rfl
